import Mathlib

/-!
Shallow embedding of the ghost-gpt-extension background service
(`src/background.js`, two concatenated versions: v1 and v2) together with
proofs of the specification claims.

JavaScript values parsed from JSON are modelled by `JsValue`; the flat
`chrome.storage.local` key-value store is modelled by `Store`; every
observable effect (badge updates, storage writes, clipboard access,
network POSTs) is recorded in a trace of `Act`s.  Nondeterministic
platform behaviour (clipboard contents, network responses, clipboard
write success) is supplied by explicit oracle values.
-/

/-- A JSON value, as produced by `res.json()` or stored in
`chrome.storage.local`. -/
inductive JsValue where
  | null
  | bool (b : Bool)
  | num (n : Int)
  | str (s : String)
  | arr (elems : List JsValue)
  | obj (fields : List (String × JsValue))
deriving Repr

/-- JS property access `v?.k`: returns the field when `v` is an object
that has it, otherwise `none` (JS `undefined`). -/
def JsValue.getField : JsValue → String → Option JsValue
  | JsValue.obj fs, k => (fs.find? (fun p => p.fst = k)).map Prod.snd
  | _, _ => none

/-- JS `Array.isArray`. -/
def JsValue.isArr : JsValue → Bool
  | JsValue.arr _ => true
  | _ => false

/-- JS truthiness of a JSON value. -/
def JsValue.truthy : JsValue → Bool
  | JsValue.null => false
  | JsValue.bool b => b
  | JsValue.num n => n != 0
  | JsValue.str s => s ≠ ""
  | JsValue.arr _ => true
  | JsValue.obj _ => true

/-- JS `x || d` for an optional string field (absent or empty string
falls back to the default). -/
def jsOr (x : Option String) (d : String) : String :=
  match x with
  | some s => if s = "" then d else s
  | none => d

/-- JS whitespace for `String.prototype.trim` (ASCII part). -/
def wsChar (c : Char) : Bool :=
  c = ' ' || c = '\t' || c = '\n' || c = '\r' || c = Char.ofNat 12 || c = Char.ofNat 11

/-- JS `s.trim()`: strip leading and trailing whitespace.  (Defined on
the character list so that it evaluates inside the kernel.) -/
def String.jstrim (s : String) : String :=
  String.mk (((s.data.dropWhile wsChar).reverse.dropWhile wsChar).reverse)

/-! ### JSON.stringify(v, null, 2) -/

/-- Lower-case hexadecimal digit. -/
def hexDigit (n : Nat) : Char :=
  if n < 10 then Char.ofNat (48 + n) else Char.ofNat (87 + n)

/-- Escape one character as inside a JSON string literal. -/
def jsonEscapeChar (c : Char) : String :=
  if c = '"' then "\\\""
  else if c = '\\' then "\\\\"
  else if c = '\n' then "\\n"
  else if c = '\r' then "\\r"
  else if c = '\t' then "\\t"
  else if c = Char.ofNat 8 then "\\b"
  else if c = Char.ofNat 12 then "\\f"
  else if c.toNat < 32 then
    "\\u00" ++ String.mk [hexDigit (c.toNat / 16), hexDigit (c.toNat % 16)]
  else String.mk [c]

/-- A JSON string literal with quotes and escapes. -/
def jsonQuote (s : String) : String :=
  "\"" ++ String.join (s.toList.map jsonEscapeChar) ++ "\""

/-- Indentation of `2*d` spaces, as used by `JSON.stringify(v, null, 2)`. -/
def jsonIndent (d : Nat) : String :=
  String.mk (List.replicate (2 * d) ' ')

mutual

/-- `JSON.stringify(v, null, 2)` at nesting depth `d`. -/
def jsonStringifyAt : JsValue → Nat → String
  | JsValue.null, _ => "null"
  | JsValue.bool true, _ => "true"
  | JsValue.bool false, _ => "false"
  | JsValue.num n, _ => toString n
  | JsValue.str s, _ => jsonQuote s
  | JsValue.arr [], _ => "[]"
  | JsValue.arr (x :: xs), d =>
      "[\n" ++ jsonStringifyArr (x :: xs) (d + 1) ++ "\n" ++ jsonIndent d ++ "]"
  | JsValue.obj [], _ => "\x7b\x7d"
  | JsValue.obj (f :: fs), d =>
      "\x7b\n" ++ jsonStringifyObj (f :: fs) (d + 1) ++ "\n" ++ jsonIndent d ++ "\x7d"

/-- Array elements, one per line, comma separated. -/
def jsonStringifyArr : List JsValue → Nat → String
  | [], _ => ""
  | [x], d => jsonIndent d ++ jsonStringifyAt x d
  | x :: y :: xs, d =>
      jsonIndent d ++ jsonStringifyAt x d ++ ",\n" ++ jsonStringifyArr (y :: xs) d

/-- Object fields, one per line, comma separated. -/
def jsonStringifyObj : List (String × JsValue) → Nat → String
  | [], _ => ""
  | [(k, v)], d => jsonIndent d ++ jsonQuote k ++ ": " ++ jsonStringifyAt v d
  | (k, v) :: f :: fs, d =>
      jsonIndent d ++ jsonQuote k ++ ": " ++ jsonStringifyAt v d ++ ",\n" ++
        jsonStringifyObj (f :: fs) d

end

/-- `JSON.stringify(responseJson, null, 2)`. -/
def jsonStringify2 (v : JsValue) : String :=
  jsonStringifyAt v 0

/-! ### OpenAIResponsesClient.extractOutputText (identical in v1 and v2) -/

/-- The text chunks one `output` item contributes: every string `text`
field of its `content` parts, then its own string `text` field. -/
def chunksOfItem (item : JsValue) : List String :=
  (match item.getField "content" with
   | some (JsValue.arr cs) =>
       cs.filterMap (fun c =>
         match c.getField "text" with
         | some (JsValue.str t) => some t
         | _ => none)
   | _ => []) ++
  (match item.getField "text" with
   | some (JsValue.str t) => [t]
   | _ => [])

/-- The join of all chunks of the `output` array, trimmed, when the
`output` field is an array and the trimmed join is non-empty. -/
def outputJoined (j : JsValue) : Option String :=
  match j.getField "output" with
  | some (JsValue.arr items) =>
      let joined := (String.intercalate "\n" (items.map chunksOfItem).flatten).jstrim
      if joined ≠ "" then some joined else none
  | _ => none

/-- `OpenAIResponsesClient.extractOutputText` (source lines 143-166 and
549-572; the two versions are textually identical). -/
def extractOutputText (j : JsValue) : String :=
  match j.getField "output_text" with
  | some (JsValue.str s) =>
      if s.jstrim ≠ "" then s.jstrim
      else (outputJoined j).getD (jsonStringify2 j)
  | _ => (outputJoined j).getD (jsonStringify2 j)

/-! ### The flat key-value store (`chrome.storage.local`) -/

/-- The keys the background service reads and writes.  `none` models a
key that has never been written (JS `undefined`). -/
structure Store where
  apiKey : Option String
  model : Option String
  systemPrompt : Option String
  imagePrompt : Option String
  textPrompt : Option String
  lastAnswer : Option String
  lastState : Option String
  sessionHistory : Option JsValue
  sessionEnabled : Option Bool
deriving Repr

/-- One message of an OpenAI Responses request: a content part is either
an `input_text` or an `input_image` object. -/
inductive ContentPart where
  | inputText (text : JsValue)
  | inputImage (imageUrl : JsValue)
deriving Repr

/-- A request message: `{ role, content: [...] }`. -/
structure Msg where
  role : String
  content : List ContentPart
deriving Repr

/-- The JSON body of a POST to `https://api.openai.com/v1/responses`.
`instructions` is `none` for v1 bodies (v1 folds the system prompt into
the message text instead). -/
structure RequestBody where
  model : String
  temperature : Nat
  instructions : Option String
  input : List Msg
deriving Repr

/-- Observable effects of the background service, in execution order. -/
inductive Act where
  | setBadgeText (t : String)
  | setBadgeColor (c : String)
  | storageSet (pairs : List (String × JsValue))
  | clipboardRead
  | clipboardWrite (text : String)
  | netPost (body : RequestBody) (timeoutMs : Option Nat)
  | menuCreate (id : String) (title : String)
  | menuUpdate (id : String) (title : String)
deriving Repr

/-- Apply one written key-value pair to the store (the shape written by
the service for each key is fixed; other shapes leave the store as is). -/
def Store.setKey (st : Store) : String × JsValue → Store
  | ("apiKey", JsValue.str s) => { st with apiKey := some s }
  | ("model", JsValue.str s) => { st with model := some s }
  | ("systemPrompt", JsValue.str s) => { st with systemPrompt := some s }
  | ("imagePrompt", JsValue.str s) => { st with imagePrompt := some s }
  | ("textPrompt", JsValue.str s) => { st with textPrompt := some s }
  | ("lastAnswer", JsValue.str s) => { st with lastAnswer := some s }
  | ("lastState", JsValue.str s) => { st with lastState := some s }
  | ("sessionHistory", v) => { st with sessionHistory := some v }
  | ("sessionEnabled", JsValue.bool b) => { st with sessionEnabled := some b }
  | _ => st

/-- `chrome.storage.local.set(obj)`. -/
def stWrite (st : Store) (pairs : List (String × JsValue)) : Store :=
  pairs.foldl Store.setKey st

/-- The store effect of one action (only storage writes change it). -/
def Act.applyTo (st : Store) : Act → Store
  | Act.storageSet ps => stWrite st ps
  | _ => st

/-- Run a list of actions against the store. -/
def runActs (st : Store) (acts : List Act) : Store :=
  acts.foldl Act.applyTo st

/-! ### StateIndicator (identical in v1 and v2) -/

/-- Effects of `StateIndicator.setIdle`. -/
def setIdleActs : List Act :=
  [Act.setBadgeText "", Act.storageSet [("lastState", JsValue.str "idle")]]

/-- Effects of `StateIndicator.setBusy`. -/
def setBusyActs : List Act :=
  [Act.setBadgeText "…", Act.setBadgeColor "#f59e0b",
   Act.storageSet [("lastState", JsValue.str "busy")]]

/-- Effects of `StateIndicator.setReady`. -/
def setReadyActs : List Act :=
  [Act.setBadgeText "✓", Act.setBadgeColor "#22c55e",
   Act.storageSet [("lastState", JsValue.str "ready")]]

/-- Effects of `StateIndicator.setError`. -/
def setErrorActs : List Act :=
  [Act.setBadgeText "ERR", Act.setBadgeColor "#ef4444",
   Act.storageSet [("lastState", JsValue.str "error")]]

/-! ### Oracles for platform nondeterminism -/

/-- What `readClipboardBestEffort` found in the clipboard. -/
inductive ClipResult where
  | image (dataUrl : String)
  | text (t : String)
  | empty
deriving Repr, DecidableEq

/-- Outcome of `ClipboardReader.readClipboardViaInjectedScript` (the
whole read can also throw, e.g. "No active tab"). -/
inductive ClipOutcome where
  | ok (r : ClipResult)
  | fail (msg : String)
deriving Repr, DecidableEq

/-- Behaviour of the server for the (single) v2 POST: a JSON reply, a
timeout hit, a non-ok HTTP status (with error body text and status
text), or another fetch failure. -/
inductive NetBehavior where
  | ok (json : JsValue)
  | timeout
  | httpErr (status : Nat) (errText : String) (statusText : String)
  | netErr (msg : String)
deriving Repr

/-- Behaviour of the server for a v1 POST.  The v1 fetch carries no
abort signal, so there is no timeout outcome: a silent server leaves
the promise pending forever. -/
inductive NetBehavior1 where
  | ok (json : JsValue)
  | httpErr (status : Nat) (errText : String) (statusText : String)
  | netErr (msg : String)
deriving Repr

/-- Platform oracle for one v2 handler invocation. -/
structure Oracle where
  clip : ClipOutcome
  net : NetBehavior
  clipWrite : Option String

/-- Platform oracle for one v1 handler invocation. -/
structure Oracle1 where
  clip : ClipOutcome
  net : NetBehavior1
  clipWrite : Option String

/-- Result of running a flow or handler: the store after the run, the
trace of effects, and the error message when the code threw. -/
structure FlowResult where
  store : Store
  trace : List Act
  err : Option String
deriving Repr

/-! ### buildHistoryMessages (v2, source lines 746-770) -/

/-- Truthiness of `item.k` (absent field is `undefined`, falsy). -/
def truthyField (item : JsValue) (k : String) : Bool :=
  match item.getField k with
  | some v => v.truthy
  | none => false

/-- JS strict equality `v === lit` against a string literal. -/
def JsValue.strictEqStr : JsValue → String → Bool
  | JsValue.str s, t => s = t
  | _, _ => false

/-- `item.k === lit` for a string literal. -/
def fieldIsStr (item : JsValue) (k lit : String) : Bool :=
  match item.getField k with
  | some v => v.strictEqStr lit
  | none => false

/-- `item.k`, defaulting to `null` when absent (the default is never
reached where this is used, since truthiness is checked first). -/
def fieldD (item : JsValue) (k : String) : JsValue :=
  (item.getField k).getD JsValue.null

/-- One iteration of the `buildHistoryMessages` loop: the message the
history item contributes, or `none` when the item is skipped. -/
def histMsgOf (item : JsValue) : Option Msg :=
  if ¬ item.truthy then none
  else if ¬ truthyField item "kind" then none
  else if fieldIsStr item "kind" "image" && truthyField item "dataUrl" then
    some { role := "user", content := [ContentPart.inputImage (fieldD item "dataUrl")] }
  else if fieldIsStr item "kind" "text" && truthyField item "text" then
    some { role := "user", content := [ContentPart.inputText (fieldD item "text")] }
  else none

/-- The loop body of `buildHistoryMessages` over the elements of an
array. -/
def buildHistoryMessagesList (items : List JsValue) : List Msg :=
  items.filterMap histMsgOf

/-- `buildHistoryMessages(sessionHistory)` (source lines 746-770):
non-arrays yield `[]`. -/
def buildHistoryMessages (sessionHistory : JsValue) : List Msg :=
  match sessionHistory with
  | JsValue.arr items => buildHistoryMessagesList items
  | _ => []

/-- `!!settings.sessionEnabled`. -/
def sessionOn (st : Store) : Bool :=
  st.sessionEnabled.getD false

/-- `Array.isArray(settings.sessionHistory) ? [...settings.sessionHistory] : []`. -/
def histCopyOf (st : Store) : List JsValue :=
  match st.sessionHistory with
  | some (JsValue.arr xs) => xs
  | _ => []

/-- The history item pushed after a vision call: `{ kind: "image", dataUrl }`. -/
def imageItem (url : String) : JsValue :=
  JsValue.obj [("kind", JsValue.str "image"), ("dataUrl", JsValue.str url)]

/-- The history item pushed after a text call: `{ kind: "text", text }`. -/
def textItem (t : String) : JsValue :=
  JsValue.obj [("kind", JsValue.str "text"), ("text", JsValue.str t)]

/-- `(settings.model || "gpt-4o-mini").trim()`. -/
def modelOf (st : Store) : String :=
  (jsOr st.model "gpt-4o-mini").jstrim

/-- `settings.systemPrompt || "Tu es un assistant concis."`. -/
def instructionsOf (st : Store) : String :=
  jsOr st.systemPrompt "Tu es un assistant concis."

/-- The history messages a v2 flow sends: built from the stored history
when session mode is on, empty otherwise. -/
def historyOf (st : Store) : List Msg :=
  if sessionOn st then buildHistoryMessagesList (histCopyOf st) else []

/-- The store after `StateIndicator.setBusy()`. -/
def busySt (st : Store) : Store :=
  { st with lastState := some "busy" }

/-! ### OpenAIResponsesClient, v2 (source lines 433-573) -/

namespace V2

/-- The error message thrown on an `AbortError` (timeout) in
`_postWithTimeout`. -/
def timeoutMessage : String :=
  "La requête vers l'API OpenAI a dépassé 30 secondes et a été annulée. " ++
  "Cela peut venir d'un texte très long, d'une image lourde ou d'un problème de réseau / API."

/-- The message of the error thrown inside the `try` block on a non-ok
HTTP status: `errText || res.statusText || "Aucun détail..."`. -/
def httpErrMessage (status : Nat) (errText statusText : String) : String :=
  "La requête OpenAI a échoué (code " ++ toString status ++ "). " ++
  (if errText ≠ "" then errText
   else if statusText ≠ "" then statusText
   else "Aucun détail supplémentaire n'a été fourni.")

/-- The wrapping applied by the `catch` block to any non-abort error:
`"Erreur lors de l'appel à l'API OpenAI : " + (e.message || e.toString())`. -/
def wrapNetMessage (m : String) : String :=
  "Erreur lors de l'appel à l'API OpenAI : " ++ (if m ≠ "" then m else "Error")

/-- `OpenAIResponsesClient._postWithTimeout(body, timeoutMs)` (source
lines 439-480): the issued POST (with its abort timeout) and the
JSON result or thrown error message. -/
def postWithTimeout (body : RequestBody) (timeoutMs : Nat) (net : NetBehavior) :
    Act × Except String JsValue :=
  (Act.netPost body (some timeoutMs),
   match net with
   | NetBehavior.ok j => Except.ok j
   | NetBehavior.timeout => Except.error timeoutMessage
   | NetBehavior.httpErr s et stx => Except.error (wrapNetMessage (httpErrMessage s et stx))
   | NetBehavior.netErr m => Except.error (wrapNetMessage m))

/-- The latest-message content built by v2 `createVisionResponse`: the
image prompt as an `input_text` part when its trim is truthy, then the
image. -/
def visionLatestContent (imagePrompt imageDataUrl : String) : List ContentPart :=
  (if imagePrompt ≠ "" ∧ imagePrompt.jstrim ≠ ""
   then [ContentPart.inputText (JsValue.str imagePrompt.jstrim)]
   else []) ++
  [ContentPart.inputImage (JsValue.str imageDataUrl)]

/-- `OpenAIResponsesClient.createVisionResponse` (source lines 489-518):
history messages, then the newest user message; POST with a 20000 ms
timeout. -/
def createVisionResponse (model instructions : String) (historyMessages : List Msg)
    (imagePrompt imageDataUrl : String) (net : NetBehavior) :
    Act × Except String JsValue :=
  let input := historyMessages ++
    [{ role := "user", content := visionLatestContent imagePrompt imageDataUrl }]
  postWithTimeout
    { model := model, temperature := 0, instructions := some instructions, input := input }
    20000 net

/-- The text of the newest message built by v2 `createTextResponse`:
trimmed prompt and trimmed raw text joined by a blank line, falling
back to the raw text. -/
def textForThisTurn (textPrompt rawText : String) : String :=
  let pieces :=
    (if textPrompt ≠ "" ∧ textPrompt.jstrim ≠ "" then [textPrompt.jstrim] else []) ++
    (if rawText ≠ "" ∧ rawText.jstrim ≠ "" then [rawText.jstrim] else [])
  let joined := (String.intercalate "\n\n" pieces).jstrim
  if joined ≠ "" then joined else rawText

/-- `OpenAIResponsesClient.createTextResponse` (source lines 520-547). -/
def createTextResponse (model instructions : String) (historyMessages : List Msg)
    (textPrompt rawText : String) (net : NetBehavior) :
    Act × Except String JsValue :=
  let input := historyMessages ++
    [{ role := "user",
       content := [ContentPart.inputText (JsValue.str (textForThisTurn textPrompt rawText))] }]
  postWithTimeout
    { model := model, temperature := 0, instructions := some instructions, input := input }
    20000 net

end V2

/-! ### Shared handler pieces (identical in v1 and v2) -/

/-- JS `s || d` on strings. -/
def jsOrElse (s d : String) : String :=
  if s = "" then d else s

/-- The `catch` block wrapping every user-event listener: a thrown
error is logged and `StateIndicator.setError()` runs. -/
def catchWrap (r : FlowResult) : FlowResult :=
  match r.err with
  | none => r
  | some _ =>
    { store := runActs r.store setErrorActs,
      trace := r.trace ++ setErrorActs,
      err := none }

/-- The "copy the last answer" branch shared by the copy-last menu item
and the ready-state icon click: a falsy stored answer returns silently,
otherwise the answer is written to the clipboard and the indicator goes
idle. -/
def copyLastAnswerRun (st : Store) (clipWrite : Option String) : FlowResult :=
  let answer := st.lastAnswer.getD ""
  if answer = "" then { store := st, trace := [], err := none }
  else
    match clipWrite with
    | some m => { store := st, trace := [Act.clipboardWrite answer], err := some m }
    | none =>
      { store := runActs st setIdleActs,
        trace := Act.clipboardWrite answer :: setIdleActs,
        err := none }

/-- A user-visible event dispatched to the background service. -/
inductive UiEvent where
  | actionClick
  | menuClick (menuItemId : String) (selectionText : Option String)
  | installed

/-! ### Flows and handlers, v2 (source lines 656-865) -/

namespace V2

/-- `runClipboardFlow` (source lines 774-830). -/
def runClipboardFlow (st : Store) (clip : ClipOutcome) (net : NetBehavior) : FlowResult :=
  if jsOr st.apiKey "" = "" then
    { store := st, trace := [], err := some "No API key set (Options)." }
  else
    let st1 := runActs st setBusyActs
    let tr1 := setBusyActs ++ [Act.clipboardRead]
    match clip with
    | ClipOutcome.fail m => { store := st1, trace := tr1, err := some m }
    | ClipOutcome.ok c =>
      let model := modelOf st
      let instructions := instructionsOf st
      let sessionEnabled := sessionOn st
      let histCopy : List JsValue :=
        if sessionEnabled then histCopyOf st else []
      let historyMessages := if sessionEnabled then buildHistoryMessagesList histCopy else []
      match c with
      | ClipResult.empty =>
        { store := st1, trace := tr1, err := some "Clipboard is empty or blocked." }
      | ClipResult.image url =>
        let (act, res) :=
          createVisionResponse model instructions historyMessages (jsOr st.imagePrompt "") url net
        (match res with
         | Except.error m => { store := st1, trace := tr1 ++ [act], err := some m }
         | Except.ok j =>
           let (st2, tr2) :=
             if sessionEnabled then
               let pairs : List (String × JsValue) :=
                 [("sessionHistory",
                   JsValue.arr (histCopy ++
                     [imageItem url]))]
               (stWrite st1 pairs, tr1 ++ [act, Act.storageSet pairs])
             else (st1, tr1 ++ [act])
           let answer := extractOutputText j
           let aPairs : List (String × JsValue) := [("lastAnswer", JsValue.str answer)]
           { store := runActs (stWrite st2 aPairs) setReadyActs,
             trace := tr2 ++ [Act.storageSet aPairs] ++ setReadyActs,
             err := none })
      | ClipResult.text t =>
        let (act, res) :=
          createTextResponse model instructions historyMessages (jsOr st.textPrompt "")
            (jsOrElse t "") net
        (match res with
         | Except.error m => { store := st1, trace := tr1 ++ [act], err := some m }
         | Except.ok j =>
           let (st2, tr2) :=
             if sessionEnabled then
               let pairs : List (String × JsValue) :=
                 [("sessionHistory",
                   JsValue.arr (histCopy ++
                     [textItem (jsOrElse t "")]))]
               (stWrite st1 pairs, tr1 ++ [act, Act.storageSet pairs])
             else (st1, tr1 ++ [act])
           let answer := extractOutputText j
           let aPairs : List (String × JsValue) := [("lastAnswer", JsValue.str answer)]
           { store := runActs (stWrite st2 aPairs) setReadyActs,
             trace := tr2 ++ [Act.storageSet aPairs] ++ setReadyActs,
             err := none })

/-- `runTextFlow(text)` (source lines 832-865). -/
def runTextFlow (st : Store) (text : String) (net : NetBehavior) : FlowResult :=
  if jsOr st.apiKey "" = "" then
    { store := st, trace := [], err := some "No API key set (Options)." }
  else
    let st1 := runActs st setBusyActs
    let tr1 := setBusyActs
    let model := modelOf st
    let instructions := instructionsOf st
    let sessionEnabled := sessionOn st
    let histCopy : List JsValue :=
      if sessionEnabled then histCopyOf st else []
    let historyMessages := if sessionEnabled then buildHistoryMessagesList histCopy else []
    let (act, res) :=
      createTextResponse model instructions historyMessages (jsOr st.textPrompt "")
        (jsOrElse text "") net
    match res with
    | Except.error m => { store := st1, trace := tr1 ++ [act], err := some m }
    | Except.ok j =>
      let (st2, tr2) :=
        if sessionEnabled then
          let pairs : List (String × JsValue) :=
            [("sessionHistory",
              JsValue.arr (histCopy ++
                [textItem (jsOrElse text "")]))]
          (stWrite st1 pairs, tr1 ++ [act, Act.storageSet pairs])
        else (st1, tr1 ++ [act])
      let answer := extractOutputText j
      let aPairs : List (String × JsValue) := [("lastAnswer", JsValue.str answer)]
      { store := runActs (stWrite st2 aPairs) setReadyActs,
        trace := tr2 ++ [Act.storageSet aPairs] ++ setReadyActs,
        err := none }

/-- The session toggle branch of the context-menu listener (source
lines 692-711). -/
def toggleSessionRun (st : Store) : FlowResult :=
  let enabled := sessionOn st
  let newValue := !enabled
  let pairs : List (String × JsValue) :=
    [("sessionEnabled", JsValue.bool newValue), ("sessionHistory", JsValue.arr [])]
  let title :=
    if newValue then "Désactiver la session (Ghost GPT)"
    else "Activer la session (Ghost GPT)"
  { store := runActs (stWrite st pairs) setIdleActs,
    trace := Act.storageSet pairs :: Act.menuUpdate "ghostgpt-toggle-session" title :: setIdleActs,
    err := none }

/-- The `chrome.action.onClicked` listener (source lines 725-742). -/
def handleActionClick (st : Store) (o : Oracle) : FlowResult :=
  catchWrap
    (if st.lastState = some "ready" then copyLastAnswerRun st o.clipWrite
     else runClipboardFlow st o.clip o.net)

/-- The `chrome.contextMenus.onClicked` listener (source lines 682-722). -/
def handleContextMenu (st : Store) (menuItemId : String) (selectionText : Option String)
    (o : Oracle) : FlowResult :=
  catchWrap
    (if menuItemId = "ghostgpt-copy-last" then copyLastAnswerRun st o.clipWrite
     else if menuItemId = "ghostgpt-toggle-session" then toggleSessionRun st
     else if menuItemId = "ghostgpt-send-selection" then
       let selection := (jsOr selectionText "").jstrim
       if selection = "" then { store := st, trace := [], err := none }
       else runTextFlow st selection o.net
     else { store := st, trace := [], err := none })

/-- The `chrome.runtime.onInstalled` listener (source lines 656-679). -/
def handleInstalled (st : Store) : FlowResult :=
  let enabled := sessionOn st
  { store := runActs st setIdleActs,
    trace :=
      [Act.menuCreate "ghostgpt-copy-last" "Copier la dernière réponse (Ghost GPT)",
       Act.menuCreate "ghostgpt-send-selection" "Envoyer la sélection à Ghost GPT",
       Act.menuCreate "ghostgpt-toggle-session"
         (if enabled then "Désactiver la session (Ghost GPT)"
          else "Activer la session (Ghost GPT)")] ++ setIdleActs,
    err := none }

/-- All v2 event listeners as one dispatcher. -/
def dispatch (e : UiEvent) (st : Store) (o : Oracle) : FlowResult :=
  match e with
  | UiEvent.actionClick => handleActionClick st o
  | UiEvent.menuClick id sel => handleContextMenu st id sel o
  | UiEvent.installed => handleInstalled st

end V2

/-! ### OpenAIResponsesClient, flows and handlers, v1 (source lines 1-369) -/

namespace V1

/-- The v1 fetch of `https://api.openai.com/v1/responses`: a plain
`fetch` with no abort signal and hence no timeout (source lines 87-101
and 126-140); a non-ok status throws
`"OpenAI error " + status + ": " + (errText || statusText)`. -/
def fetchResponses (body : RequestBody) (net : NetBehavior1) : Act × Except String JsValue :=
  (Act.netPost body none,
   match net with
   | NetBehavior1.ok j => Except.ok j
   | NetBehavior1.httpErr s et stx =>
       Except.error ("OpenAI error " ++ toString s ++ ": " ++ (if et ≠ "" then et else stx))
   | NetBehavior1.netErr m => Except.error m)

/-- `OpenAIResponsesClient.createVisionResponse` (v1, source lines
63-102): one user message holding the joined prompts and the image. -/
def createVisionResponse (model systemPrompt imagePrompt imageDataUrl : String)
    (net : NetBehavior1) : Act × Except String JsValue :=
  let prep := jsOrElse systemPrompt ""
  let imgPrompt := jsOrElse imagePrompt ""
  fetchResponses
    { model := model, temperature := 0, instructions := none,
      input := [{ role := "user",
                  content := [ContentPart.inputText (JsValue.str (prep ++ "\n\n" ++ imgPrompt).jstrim),
                              ContentPart.inputImage (JsValue.str imageDataUrl)] }] }
    net

/-- `OpenAIResponsesClient.createTextResponse` (v1, source lines
105-141): one user message holding prompts and raw text joined. -/
def createTextResponse (model systemPrompt textPrompt rawText : String)
    (net : NetBehavior1) : Act × Except String JsValue :=
  let prep := jsOrElse systemPrompt ""
  let tPrompt := jsOrElse textPrompt ""
  let contentText := (prep ++ "\n\n" ++ tPrompt ++ "\n\n" ++ jsOrElse rawText "").jstrim
  fetchResponses
    { model := model, temperature := 0, instructions := none,
      input := [{ role := "user",
                  content := [ContentPart.inputText (JsValue.str contentText)] }] }
    net

/-- `runClipboardFlow` (v1, source lines 310-347). -/
def runClipboardFlow (st : Store) (clip : ClipOutcome) (net : NetBehavior1) : FlowResult :=
  if jsOr st.apiKey "" = "" then
    { store := st, trace := [], err := some "No API key set (Options)." }
  else
    let st1 := runActs st setBusyActs
    let tr1 := setBusyActs ++ [Act.clipboardRead]
    match clip with
    | ClipOutcome.fail m => { store := st1, trace := tr1, err := some m }
    | ClipOutcome.ok c =>
      let model := modelOf st
      let systemPrompt := instructionsOf st
      match c with
      | ClipResult.empty =>
        { store := st1, trace := tr1, err := some "Clipboard is empty or blocked." }
      | ClipResult.image url =>
        let (act, res) :=
          createVisionResponse model systemPrompt (jsOr st.imagePrompt "") url net
        (match res with
         | Except.error m => { store := st1, trace := tr1 ++ [act], err := some m }
         | Except.ok j =>
           let answer := extractOutputText j
           let aPairs : List (String × JsValue) := [("lastAnswer", JsValue.str answer)]
           { store := runActs (stWrite st1 aPairs) setReadyActs,
             trace := tr1 ++ [act, Act.storageSet aPairs] ++ setReadyActs,
             err := none })
      | ClipResult.text t =>
        let (act, res) :=
          createTextResponse model systemPrompt (jsOr st.textPrompt "") (jsOrElse t "") net
        (match res with
         | Except.error m => { store := st1, trace := tr1 ++ [act], err := some m }
         | Except.ok j =>
           let answer := extractOutputText j
           let aPairs : List (String × JsValue) := [("lastAnswer", JsValue.str answer)]
           { store := runActs (stWrite st1 aPairs) setReadyActs,
             trace := tr1 ++ [act, Act.storageSet aPairs] ++ setReadyActs,
             err := none })

/-- `runTextFlow(text)` (v1, source lines 349-369). -/
def runTextFlow (st : Store) (text : String) (net : NetBehavior1) : FlowResult :=
  if jsOr st.apiKey "" = "" then
    { store := st, trace := [], err := some "No API key set (Options)." }
  else
    let st1 := runActs st setBusyActs
    let model := modelOf st
    let systemPrompt := instructionsOf st
    let (act, res) :=
      createTextResponse model systemPrompt (jsOr st.textPrompt "") (jsOrElse text "") net
    match res with
    | Except.error m => { store := st1, trace := setBusyActs ++ [act], err := some m }
    | Except.ok j =>
      let answer := extractOutputText j
      let aPairs : List (String × JsValue) := [("lastAnswer", JsValue.str answer)]
      { store := runActs (stWrite st1 aPairs) setReadyActs,
        trace := setBusyActs ++ [act, Act.storageSet aPairs] ++ setReadyActs,
        err := none }

/-- The `chrome.action.onClicked` listener (v1, source lines 289-306). -/
def handleActionClick (st : Store) (o : Oracle1) : FlowResult :=
  catchWrap
    (if st.lastState = some "ready" then copyLastAnswerRun st o.clipWrite
     else runClipboardFlow st o.clip o.net)

/-- The `chrome.contextMenus.onClicked` listener (v1, source lines
267-286). -/
def handleContextMenu (st : Store) (menuItemId : String) (selectionText : Option String)
    (o : Oracle1) : FlowResult :=
  catchWrap
    (if menuItemId = "ghostgpt-copy-last" then copyLastAnswerRun st o.clipWrite
     else if menuItemId = "ghostgpt-send-selection" then
       let selection := (jsOr selectionText "").jstrim
       if selection = "" then { store := st, trace := [], err := none }
       else runTextFlow st selection o.net
     else { store := st, trace := [], err := none })

/-- The `chrome.runtime.onInstalled` listener (v1, source lines
250-264). -/
def handleInstalled (st : Store) : FlowResult :=
  { store := runActs st setIdleActs,
    trace :=
      [Act.menuCreate "ghostgpt-copy-last" "Copier la dernière réponse (Ghost GPT)",
       Act.menuCreate "ghostgpt-send-selection" "Envoyer la sélection à Ghost GPT"] ++
      setIdleActs,
    err := none }

/-- All v1 event listeners as one dispatcher. -/
def dispatch (e : UiEvent) (st : Store) (o : Oracle1) : FlowResult :=
  match e with
  | UiEvent.actionClick => handleActionClick st o
  | UiEvent.menuClick id sel => handleContextMenu st id sel o
  | UiEvent.installed => handleInstalled st

end V1

/-! ### Claim C10: buildHistoryMessages -/

/-- Any message `histMsgOf` produces comes from an image item with a
truthy `dataUrl` or a text item with truthy `text`, and carries exactly
that payload as its single content part. -/
theorem histMsgOf_some_shape (item : JsValue) (m : Msg) (h : histMsgOf item = some m) :
    (fieldIsStr item "kind" "image" = true ∧ truthyField item "dataUrl" = true ∧
       m = { role := "user", content := [ContentPart.inputImage (fieldD item "dataUrl")] }) ∨
    (fieldIsStr item "kind" "text" = true ∧ truthyField item "text" = true ∧
       m = { role := "user", content := [ContentPart.inputText (fieldD item "text")] }) := by
  unfold histMsgOf at h
  split at h
  · simp at h
  split at h
  · simp at h
  split at h
  · rename_i hb
    simp only [Bool.and_eq_true] at hb
    exact Or.inl ⟨hb.1, hb.2, (Option.some.inj h).symm⟩
  split at h
  · rename_i hb
    simp only [Bool.and_eq_true] at hb
    exact Or.inr ⟨hb.1, hb.2, (Option.some.inj h).symm⟩
  · simp at h

/-- C10: for every input value (non-arrays yield `[]`),
`buildHistoryMessages` produces only messages with role `"user"` and
exactly one content part, which is an `input_image` exactly for image
items with a truthy `dataUrl` and an `input_text` exactly for text
items with truthy `text`; falsy items and items without a truthy `kind`
are skipped, so the output is at most as long as the input. -/
theorem claim_C10_buildHistoryMessages : ∀ v : JsValue,
    (v.isArr = false → buildHistoryMessages v = []) ∧
    (∀ m ∈ buildHistoryMessages v, m.role = "user" ∧
      ((∃ u, m.content = [ContentPart.inputImage u]) ∨ ∃ t, m.content = [ContentPart.inputText t])) ∧
    (∀ items, v = JsValue.arr items → (buildHistoryMessages v).length ≤ items.length) ∧
    (∀ item : JsValue, item.truthy = false → histMsgOf item = none) ∧
    (∀ item : JsValue, truthyField item "kind" = false → histMsgOf item = none) ∧
    (∀ (item : JsValue) (m : Msg), histMsgOf item = some m →
      (fieldIsStr item "kind" "image" = true ∧ truthyField item "dataUrl" = true ∧
         m = { role := "user", content := [ContentPart.inputImage (fieldD item "dataUrl")] }) ∨
      (fieldIsStr item "kind" "text" = true ∧ truthyField item "text" = true ∧
         m = { role := "user", content := [ContentPart.inputText (fieldD item "text")] })) := by
  intro v
  refine ⟨?_, ?_, ?_, ?_, ?_, histMsgOf_some_shape⟩
  · intro h
    cases v <;> simp_all [JsValue.isArr, buildHistoryMessages]
  · intro m hm
    cases v <;> simp only [buildHistoryMessages] at hm <;> try simp at hm
    rename_i items
    obtain ⟨item, _, hsome⟩ := List.mem_filterMap.1 hm
    rcases histMsgOf_some_shape item m hsome with ⟨_, _, hmeq⟩ | ⟨_, _, hmeq⟩
    · exact ⟨by rw [hmeq], Or.inl ⟨_, by rw [hmeq]⟩⟩
    · exact ⟨by rw [hmeq], Or.inr ⟨_, by rw [hmeq]⟩⟩
  · intro items hv
    subst hv
    simpa [buildHistoryMessages, buildHistoryMessagesList] using
      List.length_filterMap_le histMsgOf items
  · intro item h
    unfold histMsgOf
    simp [h]
  · intro item h
    unfold histMsgOf
    split
    · rfl
    · simp [h]

/-- Witness for C10: concrete evaluations through the theorem. -/
theorem claim_C10_buildHistoryMessages_witness :
    buildHistoryMessages (JsValue.str "nope") = [] ∧
    histMsgOf JsValue.null = none ∧
    histMsgOf (JsValue.obj [("dataUrl", JsValue.str "d")]) = none :=
  ⟨(claim_C10_buildHistoryMessages (JsValue.str "nope")).1 rfl,
   (claim_C10_buildHistoryMessages JsValue.null).2.2.2.1 JsValue.null rfl,
   (claim_C10_buildHistoryMessages JsValue.null).2.2.2.2.1
     (JsValue.obj [("dataUrl", JsValue.str "d")]) rfl⟩

/-! ### Claim C9: extractOutputText -/

/-- C9: `extractOutputText` always returns a string, chosen by
priority: a string `output_text` with non-empty trim is returned
trimmed; otherwise, when `output` is an array, the string `text` fields
collected from each item's content parts and from the item itself are
joined with newlines and returned trimmed if non-empty; otherwise the
pretty-printed JSON serialization of the whole response is returned. -/
theorem claim_C9_extractOutputText : ∀ j : JsValue,
    (∃ s, j.getField "output_text" = some (JsValue.str s) ∧ s.jstrim ≠ "" ∧
       extractOutputText j = s.jstrim) ∨
    ((∀ s, j.getField "output_text" = some (JsValue.str s) → s.jstrim = "") ∧
     ∃ items, j.getField "output" = some (JsValue.arr items) ∧
       (String.intercalate "\n" (items.map chunksOfItem).flatten).jstrim ≠ "" ∧
       extractOutputText j = (String.intercalate "\n" (items.map chunksOfItem).flatten).jstrim) ∨
    ((∀ s, j.getField "output_text" = some (JsValue.str s) → s.jstrim = "") ∧
     (∀ items, j.getField "output" = some (JsValue.arr items) →
        (String.intercalate "\n" (items.map chunksOfItem).flatten).jstrim = "") ∧
     extractOutputText j = jsonStringify2 j) := by
  intro j
  by_cases hcase : ∃ s, j.getField "output_text" = some (JsValue.str s) ∧ s.jstrim ≠ ""
  · obtain ⟨s, hs, hne⟩ := hcase
    refine Or.inl ⟨s, hs, hne, ?_⟩
    unfold extractOutputText
    rw [hs]
    simp [hne]
  · have hmiss : ∀ s, j.getField "output_text" = some (JsValue.str s) → s.jstrim = "" := by
      intro s hs
      by_contra hne
      exact hcase ⟨s, hs, hne⟩
    have hres : extractOutputText j = (outputJoined j).getD (jsonStringify2 j) := by
      unfold extractOutputText
      cases hot : j.getField "output_text" with
      | none => rfl
      | some v =>
        cases v with
        | str s => simp [hmiss s hot]
        | null => rfl
        | bool b => rfl
        | num n => rfl
        | arr xs => rfl
        | obj fs => rfl
    cases hout : j.getField "output" with
    | none =>
      refine Or.inr (Or.inr ⟨hmiss, ?_, ?_⟩)
      · intro items h
        exact absurd h (by simp)
      · rw [hres]
        unfold outputJoined
        rw [hout]
        rfl
    | some v =>
      cases v with
      | arr items =>
        by_cases hj : (String.intercalate "\n" (items.map chunksOfItem).flatten).jstrim = ""
        · refine Or.inr (Or.inr ⟨hmiss, ?_, ?_⟩)
          · intro items' h
            simp only [Option.some.injEq, JsValue.arr.injEq] at h
            subst h
            exact hj
          · rw [hres]
            unfold outputJoined
            rw [hout]
            simp [hj]
        · refine Or.inr (Or.inl ⟨hmiss, items, rfl, hj, ?_⟩)
          rw [hres]
          unfold outputJoined
          rw [hout]
          simp [hj]
      | null =>
        refine Or.inr (Or.inr ⟨hmiss, fun items h => absurd h (by simp), ?_⟩)
        rw [hres]; unfold outputJoined; rw [hout]; rfl
      | bool b =>
        refine Or.inr (Or.inr ⟨hmiss, fun items h => absurd h (by simp), ?_⟩)
        rw [hres]; unfold outputJoined; rw [hout]; rfl
      | num n =>
        refine Or.inr (Or.inr ⟨hmiss, fun items h => absurd h (by simp), ?_⟩)
        rw [hres]; unfold outputJoined; rw [hout]; rfl
      | str s =>
        refine Or.inr (Or.inr ⟨hmiss, fun items h => absurd h (by simp), ?_⟩)
        rw [hres]; unfold outputJoined; rw [hout]; rfl
      | obj fs =>
        refine Or.inr (Or.inr ⟨hmiss, fun items h => absurd h (by simp), ?_⟩)
        rw [hres]; unfold outputJoined; rw [hout]; rfl

/-- Witness for C9: a response whose `output_text` is `" hi "` extracts
to `"hi"`. -/
theorem claim_C9_extractOutputText_witness :
    extractOutputText (JsValue.obj [("output_text", JsValue.str " hi ")]) = "hi" := by
  have h := claim_C9_extractOutputText (JsValue.obj [("output_text", JsValue.str " hi ")])
  rcases h with ⟨s, hs, hne, hres⟩ | ⟨hmiss, _⟩ | ⟨hmiss, hmiss2, hres⟩
  · have hs' : JsValue.str " hi " = JsValue.str s := by
      simpa [JsValue.getField] using hs
    cases hs'
    exact hres
  · exact absurd (hmiss " hi " rfl) (by decide)
  · exact absurd (hmiss " hi " rfl) (by decide)

/-! ### Claim C4: POST with timeout -/

/-- A string with a non-empty prefix is non-empty. -/
theorem append_ne_empty_left (s t : String) (h : s.data ≠ []) : s ++ t ≠ "" := by
  intro he
  apply h
  have h2 : (s ++ t).data = ([] : List Char) := by rw [he]
  rw [String.data_append] at h2
  exact (List.append_eq_nil.mp h2).1

/-- The timeout attached to an action, when the action is a POST:
`some none` means a POST without any timeout. -/
def actTimeout : Act → Option (Option Nat)
  | Act.netPost _ t => some t
  | _ => none

/-- Counterexample to C4 as stated: the POST issued by the v1
`createTextResponse` wrapper carries no timeout at all (v1 calls
`fetch` without an abort signal), so not every version's client POST
is issued with a timeout. -/
theorem claim_C4_counterexample :
    actTimeout (V1.createTextResponse "gpt-4o-mini" "sys" "tp" "raw"
      (NetBehavior1.ok JsValue.null)).fst = some none := rfl

/-- C4 (amended): every POST made by the v2 wrappers goes through
`_postWithTimeout` with a 20000 ms timeout; when the timeout fires the
call raises the timeout-describing error, and a non-ok HTTP status
raises an error whose message carries the status code — in v2 (wrapped
by the catch block) and in v1 alike.  The v1 wrappers, however, issue
their POST with no timeout. -/
theorem claim_C4_post_timeout :
    (∀ model instr hist ip url net,
      actTimeout (V2.createVisionResponse model instr hist ip url net).fst = some (some 20000)) ∧
    (∀ model instr hist tp raw net,
      actTimeout (V2.createTextResponse model instr hist tp raw net).fst = some (some 20000)) ∧
    (∀ model instr hist ip url,
      (V2.createVisionResponse model instr hist ip url NetBehavior.timeout).snd =
        Except.error V2.timeoutMessage) ∧
    (∀ model instr hist tp raw,
      (V2.createTextResponse model instr hist tp raw NetBehavior.timeout).snd =
        Except.error V2.timeoutMessage) ∧
    (∀ model instr hist ip url status et stx, ∃ p q,
      (V2.createVisionResponse model instr hist ip url (NetBehavior.httpErr status et stx)).snd =
        Except.error (p ++ toString status ++ q)) ∧
    (∀ model instr hist tp raw status et stx, ∃ p q,
      (V2.createTextResponse model instr hist tp raw (NetBehavior.httpErr status et stx)).snd =
        Except.error (p ++ toString status ++ q)) ∧
    (∀ model sys ip url status et stx, ∃ p q,
      (V1.createVisionResponse model sys ip url (NetBehavior1.httpErr status et stx)).snd =
        Except.error (p ++ toString status ++ q)) ∧
    (∀ model sys tp raw status et stx, ∃ p q,
      (V1.createTextResponse model sys tp raw (NetBehavior1.httpErr status et stx)).snd =
        Except.error (p ++ toString status ++ q)) ∧
    (∀ model sys ip url net,
      actTimeout (V1.createVisionResponse model sys ip url net).fst = some none) ∧
    (∀ model sys tp raw net,
      actTimeout (V1.createTextResponse model sys tp raw net).fst = some none) := by
  refine ⟨fun _ _ _ _ _ _ => rfl, fun _ _ _ _ _ _ => rfl, fun _ _ _ _ _ => rfl,
          fun _ _ _ _ _ => rfl, ?_, ?_, ?_, ?_, fun _ _ _ _ _ => rfl, fun _ _ _ _ _ => rfl⟩
  · intro model instr hist ip url status et stx
    refine ⟨"Erreur lors de l'appel à l'API OpenAI : " ++ "La requête OpenAI a échoué (code ",
      "). " ++ (if et ≠ "" then et else if stx ≠ "" then stx
                else "Aucun détail supplémentaire n'a été fourni."), ?_⟩
    have hm : V2.httpErrMessage status et stx ≠ "" := by
      unfold V2.httpErrMessage
      simp only [String.append_assoc]
      exact append_ne_empty_left _ _ (by decide)
    have hr : (V2.createVisionResponse model instr hist ip url
        (NetBehavior.httpErr status et stx)).snd =
        Except.error (V2.wrapNetMessage (V2.httpErrMessage status et stx)) := rfl
    rw [hr]
    apply congrArg
    unfold V2.wrapNetMessage
    rw [if_pos hm]
    unfold V2.httpErrMessage
    simp only [String.append_assoc]
  · intro model instr hist tp raw status et stx
    refine ⟨"Erreur lors de l'appel à l'API OpenAI : " ++ "La requête OpenAI a échoué (code ",
      "). " ++ (if et ≠ "" then et else if stx ≠ "" then stx
                else "Aucun détail supplémentaire n'a été fourni."), ?_⟩
    have hm : V2.httpErrMessage status et stx ≠ "" := by
      unfold V2.httpErrMessage
      simp only [String.append_assoc]
      exact append_ne_empty_left _ _ (by decide)
    have hr : (V2.createTextResponse model instr hist tp raw
        (NetBehavior.httpErr status et stx)).snd =
        Except.error (V2.wrapNetMessage (V2.httpErrMessage status et stx)) := rfl
    rw [hr]
    apply congrArg
    unfold V2.wrapNetMessage
    rw [if_pos hm]
    unfold V2.httpErrMessage
    simp only [String.append_assoc]
  · intro model sys ip url status et stx
    exact ⟨"OpenAI error ", ": " ++ (if et ≠ "" then et else stx), by
      simp [V1.createVisionResponse, V1.fetchResponses, String.append_assoc]⟩
  · intro model sys tp raw status et stx
    exact ⟨"OpenAI error ", ": " ++ (if et ≠ "" then et else stx), by
      simp [V1.createTextResponse, V1.fetchResponses, String.append_assoc]⟩

/-! ### Claim C5: the four-state indicator -/

/-- Does a written pair list touch the `lastState` key? -/
def writesLastStateB (ps : List (String × JsValue)) : Bool :=
  ps.any (fun p => p.fst = "lastState")

/-- Is a pair list exactly one `lastState` write with one of the four
legal state strings? -/
def goodStateWriteB (ps : List (String × JsValue)) : Bool :=
  match ps with
  | [("lastState", JsValue.str v)] =>
      v = "idle" || v = "busy" || v = "ready" || v = "error"
  | _ => false

/-- Is an action a badge update (the other half of a setter)? -/
def isBadgeAct : Act → Bool
  | Act.setBadgeText _ => true
  | Act.setBadgeColor _ => true
  | _ => false

/-- Walk a trace remembering the previous action: every storage write
touching `lastState` must be a good single-state write immediately
preceded by a badge update, i.e. must sit inside one of the four
`StateIndicator` setters. -/
def stateWritesOkAux : Option Act → List Act → Bool
  | _, [] => true
  | prev, a :: rest =>
      (match a with
       | Act.storageSet ps =>
           if writesLastStateB ps then
             goodStateWriteB ps &&
               (match prev with
                | some p => isBadgeAct p
                | none => false)
           else true
       | _ => true) && stateWritesOkAux (some a) rest

/-- Trace check for C5. -/
def stateWritesOk (tr : List Act) : Bool :=
  stateWritesOkAux none tr


/-! ### Per-flow trace/store characterizations -/

namespace V2

/-- The request body the v2 clipboard flow POSTs for an image clip. -/
def visionBody (st : Store) (url : String) : RequestBody :=
  { model := modelOf st, temperature := 0, instructions := some (instructionsOf st),
    input := historyOf st ++
      [{ role := "user", content := visionLatestContent (jsOr st.imagePrompt "") url }] }

/-- The request body the v2 flows POST for a text payload. -/
def textBody (st : Store) (raw : String) : RequestBody :=
  { model := modelOf st, temperature := 0, instructions := some (instructionsOf st),
    input := historyOf st ++
      [{ role := "user",
         content := [ContentPart.inputText (JsValue.str (textForThisTurn (jsOr st.textPrompt "") raw))] }] }

/-- Exhaustive characterization of `V2.runClipboardFlow`: its result is
one of eight shapes (missing key, clipboard failure, empty clipboard,
failed image/text call, successful image/text call with session mode on
or off). -/
theorem runClipboardFlow_shape2 (st : Store) (clip : ClipOutcome) (net : NetBehavior) :
    (jsOr st.apiKey "" = "" ∧
      runClipboardFlow st clip net =
        { store := st, trace := [], err := some "No API key set (Options)." }) ∨
    (jsOr st.apiKey "" ≠ "" ∧
      ((∃ m, clip = ClipOutcome.fail m ∧
         runClipboardFlow st clip net =
           { store := busySt st, trace := setBusyActs ++ [Act.clipboardRead], err := some m }) ∨
       (clip = ClipOutcome.ok ClipResult.empty ∧
         runClipboardFlow st clip net =
           { store := busySt st, trace := setBusyActs ++ [Act.clipboardRead],
             err := some "Clipboard is empty or blocked." }) ∨
       (∃ url e, clip = ClipOutcome.ok (ClipResult.image url) ∧
         runClipboardFlow st clip net =
           { store := busySt st,
             trace := setBusyActs ++
               [Act.clipboardRead, Act.netPost (visionBody st url) (some 20000)],
             err := some e }) ∨
       (∃ t e, clip = ClipOutcome.ok (ClipResult.text t) ∧
         runClipboardFlow st clip net =
           { store := busySt st,
             trace := setBusyActs ++
               [Act.clipboardRead, Act.netPost (textBody st (jsOrElse t "")) (some 20000)],
             err := some e }) ∨
       (∃ url j, clip = ClipOutcome.ok (ClipResult.image url) ∧ net = NetBehavior.ok j ∧
         sessionOn st = true ∧
         runClipboardFlow st clip net =
           { store :=
               { st with
                   lastState := some "ready",
                   lastAnswer := some (extractOutputText j),
                   sessionHistory := some (JsValue.arr (histCopyOf st ++ [imageItem url])) },
             trace := setBusyActs ++
               [Act.clipboardRead, Act.netPost (visionBody st url) (some 20000),
                Act.storageSet
                  [("sessionHistory", JsValue.arr (histCopyOf st ++ [imageItem url]))],
                Act.storageSet [("lastAnswer", JsValue.str (extractOutputText j))]] ++
               setReadyActs,
             err := none }) ∨
       (∃ url j, clip = ClipOutcome.ok (ClipResult.image url) ∧ net = NetBehavior.ok j ∧
         sessionOn st = false ∧
         runClipboardFlow st clip net =
           { store :=
               { st with
                   lastState := some "ready",
                   lastAnswer := some (extractOutputText j) },
             trace := setBusyActs ++
               [Act.clipboardRead, Act.netPost (visionBody st url) (some 20000),
                Act.storageSet [("lastAnswer", JsValue.str (extractOutputText j))]] ++
               setReadyActs,
             err := none }) ∨
       (∃ t j, clip = ClipOutcome.ok (ClipResult.text t) ∧ net = NetBehavior.ok j ∧
         sessionOn st = true ∧
         runClipboardFlow st clip net =
           { store :=
               { st with
                   lastState := some "ready",
                   lastAnswer := some (extractOutputText j),
                   sessionHistory :=
                     some (JsValue.arr (histCopyOf st ++ [textItem (jsOrElse t "")])) },
             trace := setBusyActs ++
               [Act.clipboardRead, Act.netPost (textBody st (jsOrElse t "")) (some 20000),
                Act.storageSet
                  [("sessionHistory", JsValue.arr (histCopyOf st ++ [textItem (jsOrElse t "")]))],
                Act.storageSet [("lastAnswer", JsValue.str (extractOutputText j))]] ++
               setReadyActs,
             err := none }) ∨
       (∃ t j, clip = ClipOutcome.ok (ClipResult.text t) ∧ net = NetBehavior.ok j ∧
         sessionOn st = false ∧
         runClipboardFlow st clip net =
           { store :=
               { st with
                   lastState := some "ready",
                   lastAnswer := some (extractOutputText j) },
             trace := setBusyActs ++
               [Act.clipboardRead, Act.netPost (textBody st (jsOrElse t "")) (some 20000),
                Act.storageSet [("lastAnswer", JsValue.str (extractOutputText j))]] ++
               setReadyActs,
             err := none }))) := by
  by_cases hk : jsOr st.apiKey "" = ""
  · exact Or.inl ⟨hk, by unfold runClipboardFlow; rw [if_pos hk]⟩
  · refine Or.inr ⟨hk, ?_⟩
    cases clip with
    | fail m =>
      exact Or.inl ⟨m, rfl, by unfold runClipboardFlow; rw [if_neg hk]; rfl⟩
    | ok c =>
      cases c with
      | empty =>
        exact Or.inr (Or.inl ⟨rfl, by unfold runClipboardFlow; rw [if_neg hk]; rfl⟩)
      | image url =>
        cases net with
        | timeout =>
          refine Or.inr (Or.inr (Or.inl ⟨url, timeoutMessage, rfl, ?_⟩))
          unfold runClipboardFlow
          rw [if_neg hk]
          cases hsen : sessionOn st <;>
          · simp only [hsen, createVisionResponse, postWithTimeout, visionBody, historyOf,
              eq_self_iff_true, if_true, if_false, Bool.false_eq_true, ite_false, ite_true]
            rfl
        | httpErr s2 et stx =>
          refine Or.inr (Or.inr (Or.inl
            ⟨url, wrapNetMessage (httpErrMessage s2 et stx), rfl, ?_⟩))
          unfold runClipboardFlow
          rw [if_neg hk]
          cases hsen : sessionOn st <;>
          · simp only [hsen, createVisionResponse, postWithTimeout, visionBody, historyOf,
              eq_self_iff_true, if_true, if_false, Bool.false_eq_true, ite_false, ite_true]
            rfl
        | netErr m =>
          refine Or.inr (Or.inr (Or.inl ⟨url, wrapNetMessage m, rfl, ?_⟩))
          unfold runClipboardFlow
          rw [if_neg hk]
          cases hsen : sessionOn st <;>
          · simp only [hsen, createVisionResponse, postWithTimeout, visionBody, historyOf,
              eq_self_iff_true, if_true, if_false, Bool.false_eq_true, ite_false, ite_true]
            rfl
        | ok j =>
          cases hsen : sessionOn st with
          | true =>
            refine Or.inr (Or.inr (Or.inr (Or.inr (Or.inl ⟨url, j, rfl, rfl, rfl, ?_⟩))))
            unfold runClipboardFlow
            rw [if_neg hk]
            simp only [hsen, createVisionResponse, postWithTimeout, visionBody, historyOf,
              eq_self_iff_true, if_true, if_false, Bool.false_eq_true, ite_false, ite_true]
            rfl
          | false =>
            refine Or.inr (Or.inr (Or.inr (Or.inr (Or.inr (Or.inl ⟨url, j, rfl, rfl, rfl, ?_⟩)))))
            unfold runClipboardFlow
            rw [if_neg hk]
            simp only [hsen, createVisionResponse, postWithTimeout, visionBody, historyOf,
              eq_self_iff_true, if_true, if_false, Bool.false_eq_true, ite_false, ite_true]
            rfl
      | text t =>
        cases net with
        | timeout =>
          refine Or.inr (Or.inr (Or.inr (Or.inl ⟨t, timeoutMessage, rfl, ?_⟩)))
          unfold runClipboardFlow
          rw [if_neg hk]
          cases hsen : sessionOn st <;>
          · simp only [hsen, createTextResponse, postWithTimeout, textBody, historyOf,
              eq_self_iff_true, if_true, if_false, Bool.false_eq_true, ite_false, ite_true]
            rfl
        | httpErr s2 et stx =>
          refine Or.inr (Or.inr (Or.inr (Or.inl
            ⟨t, wrapNetMessage (httpErrMessage s2 et stx), rfl, ?_⟩)))
          unfold runClipboardFlow
          rw [if_neg hk]
          cases hsen : sessionOn st <;>
          · simp only [hsen, createTextResponse, postWithTimeout, textBody, historyOf,
              eq_self_iff_true, if_true, if_false, Bool.false_eq_true, ite_false, ite_true]
            rfl
        | netErr m =>
          refine Or.inr (Or.inr (Or.inr (Or.inl ⟨t, wrapNetMessage m, rfl, ?_⟩)))
          unfold runClipboardFlow
          rw [if_neg hk]
          cases hsen : sessionOn st <;>
          · simp only [hsen, createTextResponse, postWithTimeout, textBody, historyOf,
              eq_self_iff_true, if_true, if_false, Bool.false_eq_true, ite_false, ite_true]
            rfl
        | ok j =>
          cases hsen : sessionOn st with
          | true =>
            refine Or.inr (Or.inr (Or.inr (Or.inr (Or.inr (Or.inr (Or.inl
              ⟨t, j, rfl, rfl, rfl, ?_⟩))))))
            unfold runClipboardFlow
            rw [if_neg hk]
            simp only [hsen, createTextResponse, postWithTimeout, textBody, historyOf,
              eq_self_iff_true, if_true, if_false, Bool.false_eq_true, ite_false, ite_true]
            rfl
          | false =>
            refine Or.inr (Or.inr (Or.inr (Or.inr (Or.inr (Or.inr (Or.inr
              ⟨t, j, rfl, rfl, rfl, ?_⟩))))))
            unfold runClipboardFlow
            rw [if_neg hk]
            simp only [hsen, createTextResponse, postWithTimeout, textBody, historyOf,
              eq_self_iff_true, if_true, if_false, Bool.false_eq_true, ite_false, ite_true]
            rfl

end V2

namespace V2

/-- Exhaustive characterization of `V2.runTextFlow`. -/
theorem runTextFlow_shape2 (st : Store) (text : String) (net : NetBehavior) :
    (jsOr st.apiKey "" = "" ∧
      runTextFlow st text net =
        { store := st, trace := [], err := some "No API key set (Options)." }) ∨
    (jsOr st.apiKey "" ≠ "" ∧
      ((∃ e, runTextFlow st text net =
         { store := busySt st,
           trace := setBusyActs ++ [Act.netPost (textBody st (jsOrElse text "")) (some 20000)],
           err := some e }) ∨
       (∃ j, net = NetBehavior.ok j ∧ sessionOn st = true ∧
         runTextFlow st text net =
           { store :=
               { st with
                   lastState := some "ready",
                   lastAnswer := some (extractOutputText j),
                   sessionHistory :=
                     some (JsValue.arr (histCopyOf st ++ [textItem (jsOrElse text "")])) },
             trace := setBusyActs ++
               [Act.netPost (textBody st (jsOrElse text "")) (some 20000),
                Act.storageSet
                  [("sessionHistory", JsValue.arr (histCopyOf st ++ [textItem (jsOrElse text "")]))],
                Act.storageSet [("lastAnswer", JsValue.str (extractOutputText j))]] ++
               setReadyActs,
             err := none }) ∨
       (∃ j, net = NetBehavior.ok j ∧ sessionOn st = false ∧
         runTextFlow st text net =
           { store :=
               { st with
                   lastState := some "ready",
                   lastAnswer := some (extractOutputText j) },
             trace := setBusyActs ++
               [Act.netPost (textBody st (jsOrElse text "")) (some 20000),
                Act.storageSet [("lastAnswer", JsValue.str (extractOutputText j))]] ++
               setReadyActs,
             err := none }))) := by
  by_cases hk : jsOr st.apiKey "" = ""
  · exact Or.inl ⟨hk, by unfold runTextFlow; rw [if_pos hk]⟩
  · refine Or.inr ⟨hk, ?_⟩
    cases net with
    | timeout =>
      refine Or.inl ⟨timeoutMessage, ?_⟩
      unfold runTextFlow
      rw [if_neg hk]
      cases hsen : sessionOn st <;>
      · simp only [hsen, createTextResponse, postWithTimeout, textBody, historyOf,
          eq_self_iff_true, if_true, if_false, Bool.false_eq_true, ite_false, ite_true]
        rfl
    | httpErr s2 et stx =>
      refine Or.inl ⟨wrapNetMessage (httpErrMessage s2 et stx), ?_⟩
      unfold runTextFlow
      rw [if_neg hk]
      cases hsen : sessionOn st <;>
      · simp only [hsen, createTextResponse, postWithTimeout, textBody, historyOf,
          eq_self_iff_true, if_true, if_false, Bool.false_eq_true, ite_false, ite_true]
        rfl
    | netErr m =>
      refine Or.inl ⟨wrapNetMessage m, ?_⟩
      unfold runTextFlow
      rw [if_neg hk]
      cases hsen : sessionOn st <;>
      · simp only [hsen, createTextResponse, postWithTimeout, textBody, historyOf,
          eq_self_iff_true, if_true, if_false, Bool.false_eq_true, ite_false, ite_true]
        rfl
    | ok j =>
      cases hsen : sessionOn st with
      | true =>
        refine Or.inr (Or.inl ⟨j, rfl, rfl, ?_⟩)
        unfold runTextFlow
        rw [if_neg hk]
        simp only [hsen, createTextResponse, postWithTimeout, textBody, historyOf,
          eq_self_iff_true, if_true, if_false, Bool.false_eq_true, ite_false, ite_true]
        rfl
      | false =>
        refine Or.inr (Or.inr ⟨j, rfl, rfl, ?_⟩)
        unfold runTextFlow
        rw [if_neg hk]
        simp only [hsen, createTextResponse, postWithTimeout, textBody, historyOf,
          eq_self_iff_true, if_true, if_false, Bool.false_eq_true, ite_false, ite_true]
        rfl

end V2

namespace V1

/-- The request body the v1 clipboard flow POSTs for an image clip. -/
def visionBody (st : Store) (url : String) : RequestBody :=
  { model := modelOf st, temperature := 0, instructions := none,
    input := [{ role := "user",
                content :=
                  [ContentPart.inputText (JsValue.str
                    ((jsOrElse (instructionsOf st) "" ++ "\n\n" ++
                      jsOrElse (jsOr st.imagePrompt "") "").jstrim)),
                   ContentPart.inputImage (JsValue.str url)] }] }

/-- The request body the v1 flows POST for a text payload. -/
def textBody (st : Store) (raw : String) : RequestBody :=
  { model := modelOf st, temperature := 0, instructions := none,
    input := [{ role := "user",
                content :=
                  [ContentPart.inputText (JsValue.str
                    ((jsOrElse (instructionsOf st) "" ++ "\n\n" ++
                      jsOrElse (jsOr st.textPrompt "") "" ++ "\n\n" ++
                      jsOrElse raw "").jstrim))] }] }

/-- Exhaustive characterization of `V1.runClipboardFlow`. -/
theorem runClipboardFlow_shape1 (st : Store) (clip : ClipOutcome) (net : NetBehavior1) :
    (jsOr st.apiKey "" = "" ∧
      runClipboardFlow st clip net =
        { store := st, trace := [], err := some "No API key set (Options)." }) ∨
    (jsOr st.apiKey "" ≠ "" ∧
      ((∃ m, clip = ClipOutcome.fail m ∧
         runClipboardFlow st clip net =
           { store := busySt st, trace := setBusyActs ++ [Act.clipboardRead], err := some m }) ∨
       (clip = ClipOutcome.ok ClipResult.empty ∧
         runClipboardFlow st clip net =
           { store := busySt st, trace := setBusyActs ++ [Act.clipboardRead],
             err := some "Clipboard is empty or blocked." }) ∨
       (∃ url e, clip = ClipOutcome.ok (ClipResult.image url) ∧
         runClipboardFlow st clip net =
           { store := busySt st,
             trace := setBusyActs ++ [Act.clipboardRead, Act.netPost (visionBody st url) none],
             err := some e }) ∨
       (∃ t e, clip = ClipOutcome.ok (ClipResult.text t) ∧
         runClipboardFlow st clip net =
           { store := busySt st,
             trace := setBusyActs ++
               [Act.clipboardRead, Act.netPost (textBody st (jsOrElse t "")) none],
             err := some e }) ∨
       (∃ url j, clip = ClipOutcome.ok (ClipResult.image url) ∧ net = NetBehavior1.ok j ∧
         runClipboardFlow st clip net =
           { store :=
               { st with
                   lastState := some "ready",
                   lastAnswer := some (extractOutputText j) },
             trace := setBusyActs ++
               [Act.clipboardRead, Act.netPost (visionBody st url) none,
                Act.storageSet [("lastAnswer", JsValue.str (extractOutputText j))]] ++
               setReadyActs,
             err := none }) ∨
       (∃ t j, clip = ClipOutcome.ok (ClipResult.text t) ∧ net = NetBehavior1.ok j ∧
         runClipboardFlow st clip net =
           { store :=
               { st with
                   lastState := some "ready",
                   lastAnswer := some (extractOutputText j) },
             trace := setBusyActs ++
               [Act.clipboardRead, Act.netPost (textBody st (jsOrElse t "")) none,
                Act.storageSet [("lastAnswer", JsValue.str (extractOutputText j))]] ++
               setReadyActs,
             err := none }))) := by
  by_cases hk : jsOr st.apiKey "" = ""
  · exact Or.inl ⟨hk, by unfold runClipboardFlow; rw [if_pos hk]⟩
  · refine Or.inr ⟨hk, ?_⟩
    cases clip with
    | fail m =>
      exact Or.inl ⟨m, rfl, by unfold runClipboardFlow; rw [if_neg hk]; rfl⟩
    | ok c =>
      cases c with
      | empty =>
        exact Or.inr (Or.inl ⟨rfl, by unfold runClipboardFlow; rw [if_neg hk]; rfl⟩)
      | image url =>
        cases net with
        | httpErr s2 et stx =>
          refine Or.inr (Or.inr (Or.inl
            ⟨url, "OpenAI error " ++ toString s2 ++ ": " ++ (if et ≠ "" then et else stx),
             rfl, ?_⟩))
          unfold runClipboardFlow
          rw [if_neg hk]
          rfl
        | netErr m =>
          refine Or.inr (Or.inr (Or.inl ⟨url, m, rfl, ?_⟩))
          unfold runClipboardFlow
          rw [if_neg hk]
          rfl
        | ok j =>
          refine Or.inr (Or.inr (Or.inr (Or.inr (Or.inl ⟨url, j, rfl, rfl, ?_⟩))))
          unfold runClipboardFlow
          rw [if_neg hk]
          rfl
      | text t =>
        cases net with
        | httpErr s2 et stx =>
          refine Or.inr (Or.inr (Or.inr (Or.inl
            ⟨t, "OpenAI error " ++ toString s2 ++ ": " ++ (if et ≠ "" then et else stx),
             rfl, ?_⟩)))
          unfold runClipboardFlow
          rw [if_neg hk]
          rfl
        | netErr m =>
          refine Or.inr (Or.inr (Or.inr (Or.inl ⟨t, m, rfl, ?_⟩)))
          unfold runClipboardFlow
          rw [if_neg hk]
          rfl
        | ok j =>
          refine Or.inr (Or.inr (Or.inr (Or.inr (Or.inr ⟨t, j, rfl, rfl, ?_⟩))))
          unfold runClipboardFlow
          rw [if_neg hk]
          rfl

/-- Exhaustive characterization of `V1.runTextFlow`. -/
theorem runTextFlow_shape1 (st : Store) (text : String) (net : NetBehavior1) :
    (jsOr st.apiKey "" = "" ∧
      runTextFlow st text net =
        { store := st, trace := [], err := some "No API key set (Options)." }) ∨
    (jsOr st.apiKey "" ≠ "" ∧
      ((∃ e, runTextFlow st text net =
         { store := busySt st,
           trace := setBusyActs ++ [Act.netPost (textBody st (jsOrElse text "")) none],
           err := some e }) ∨
       (∃ j, net = NetBehavior1.ok j ∧
         runTextFlow st text net =
           { store :=
               { st with
                   lastState := some "ready",
                   lastAnswer := some (extractOutputText j) },
             trace := setBusyActs ++
               [Act.netPost (textBody st (jsOrElse text "")) none,
                Act.storageSet [("lastAnswer", JsValue.str (extractOutputText j))]] ++
               setReadyActs,
             err := none }))) := by
  by_cases hk : jsOr st.apiKey "" = ""
  · exact Or.inl ⟨hk, by unfold runTextFlow; rw [if_pos hk]⟩
  · refine Or.inr ⟨hk, ?_⟩
    cases net with
    | httpErr s2 et stx =>
      refine Or.inl ⟨"OpenAI error " ++ toString s2 ++ ": " ++ (if et ≠ "" then et else stx), ?_⟩
      unfold runTextFlow
      rw [if_neg hk]
      rfl
    | netErr m =>
      refine Or.inl ⟨m, ?_⟩
      unfold runTextFlow
      rw [if_neg hk]
      rfl
    | ok j =>
      refine Or.inr ⟨j, rfl, ?_⟩
      unfold runTextFlow
      rw [if_neg hk]
      rfl

end V1

/-- Last action of a list, with a default for the empty list. -/
def lastOpt (p : Option Act) : List Act → Option Act
  | [] => p
  | a :: rest => lastOpt (some a) rest

/-- `stateWritesOkAux` splits over an append. -/
theorem stateWritesOkAux_append (xs : List Act) (p : Option Act) (ys : List Act) :
    stateWritesOkAux p (xs ++ ys) =
      (stateWritesOkAux p xs && stateWritesOkAux (lastOpt p xs) ys) := by
  induction xs generalizing p with
  | nil => rfl
  | cons a rest ih =>
    simp only [List.cons_append, stateWritesOkAux, lastOpt, List.append_eq, ih, Bool.and_assoc]

/-- The catch-wrapper preserves the state-write discipline (its appended
`setError` actions are themselves a legal setter). -/
theorem stateWritesOk_catchWrap (r : FlowResult) (h : stateWritesOk r.trace = true) :
    stateWritesOk (catchWrap r).trace = true := by
  unfold catchWrap
  split
  · exact h
  · show stateWritesOk (r.trace ++ setErrorActs) = true
    unfold stateWritesOk at h ⊢
    rw [stateWritesOkAux_append, h]
    rfl

/-- The copy-last branch only performs a clipboard write and a
`setIdle`. -/
theorem stateWritesOk_copyLast (st : Store) (cw : Option String) :
    stateWritesOk (copyLastAnswerRun st cw).trace = true := by
  dsimp only [copyLastAnswerRun]
  split
  · rfl
  · cases cw <;> rfl

/-- State-write discipline of the v2 clipboard flow. -/
theorem stateWritesOk_clipFlow2 (st : Store) (clip : ClipOutcome) (net : NetBehavior) :
    stateWritesOk (V2.runClipboardFlow st clip net).trace = true := by
  rcases V2.runClipboardFlow_shape2 st clip net with ⟨_, hr⟩ | ⟨_, h⟩
  · rw [hr]; rfl
  · rcases h with ⟨m, _, hr⟩ | ⟨_, hr⟩ | ⟨url, e, _, hr⟩ | ⟨t, e, _, hr⟩ |
      ⟨url, j, _, _, _, hr⟩ | ⟨url, j, _, _, _, hr⟩ | ⟨t, j, _, _, _, hr⟩ |
      ⟨t, j, _, _, _, hr⟩ <;> rw [hr] <;> rfl

/-- State-write discipline of the v2 text flow. -/
theorem stateWritesOk_textFlow2 (st : Store) (text : String) (net : NetBehavior) :
    stateWritesOk (V2.runTextFlow st text net).trace = true := by
  rcases V2.runTextFlow_shape2 st text net with ⟨_, hr⟩ | ⟨_, h⟩
  · rw [hr]; rfl
  · rcases h with ⟨e, hr⟩ | ⟨j, _, _, hr⟩ | ⟨j, _, _, hr⟩ <;> rw [hr] <;> rfl

/-- State-write discipline of the v1 clipboard flow. -/
theorem stateWritesOk_clipFlow1 (st : Store) (clip : ClipOutcome) (net : NetBehavior1) :
    stateWritesOk (V1.runClipboardFlow st clip net).trace = true := by
  rcases V1.runClipboardFlow_shape1 st clip net with ⟨_, hr⟩ | ⟨_, h⟩
  · rw [hr]; rfl
  · rcases h with ⟨m, _, hr⟩ | ⟨_, hr⟩ | ⟨url, e, _, hr⟩ | ⟨t, e, _, hr⟩ |
      ⟨url, j, _, _, hr⟩ | ⟨t, j, _, _, hr⟩ <;> rw [hr] <;> rfl

/-- State-write discipline of the v1 text flow. -/
theorem stateWritesOk_textFlow1 (st : Store) (text : String) (net : NetBehavior1) :
    stateWritesOk (V1.runTextFlow st text net).trace = true := by
  rcases V1.runTextFlow_shape1 st text net with ⟨_, hr⟩ | ⟨_, h⟩
  · rw [hr]; rfl
  · rcases h with ⟨e, hr⟩ | ⟨j, _, hr⟩ <;> rw [hr] <;> rfl

/-- C5: in every v1 and v2 event-handler run, under every oracle, every
value written to the `lastState` key is one of exactly `"idle"`,
`"busy"`, `"ready"`, `"error"`, and each such write is a lone
`lastState` write immediately preceded by a badge update — the shape
produced exactly by the four `StateIndicator` setters. -/
theorem claim_C5_state_machine :
    (∀ e st (o : Oracle), stateWritesOk (V2.dispatch e st o).trace = true) ∧
    (∀ e st (o : Oracle1), stateWritesOk (V1.dispatch e st o).trace = true) := by
  constructor
  · intro e st o
    cases e with
    | actionClick =>
      unfold V2.dispatch V2.handleActionClick
      apply stateWritesOk_catchWrap
      split
      · exact stateWritesOk_copyLast st o.clipWrite
      · exact stateWritesOk_clipFlow2 st o.clip o.net
    | menuClick id sel =>
      unfold V2.dispatch V2.handleContextMenu
      apply stateWritesOk_catchWrap
      split
      · exact stateWritesOk_copyLast st o.clipWrite
      split
      · rfl
      split
      · dsimp only
        split
        · rfl
        · exact stateWritesOk_textFlow2 st _ o.net
      · rfl
    | installed => rfl
  · intro e st o
    cases e with
    | actionClick =>
      unfold V1.dispatch V1.handleActionClick
      apply stateWritesOk_catchWrap
      split
      · exact stateWritesOk_copyLast st o.clipWrite
      · exact stateWritesOk_clipFlow1 st o.clip o.net
    | menuClick id sel =>
      unfold V1.dispatch V1.handleContextMenu
      apply stateWritesOk_catchWrap
      split
      · exact stateWritesOk_copyLast st o.clipWrite
      split
      · dsimp only
        split
        · rfl
        · exact stateWritesOk_textFlow1 st _ o.net
      · rfl
    | installed => rfl

/-! ### Claim C6: flows only write lastState / lastAnswer / sessionHistory -/

/-- Every storage write in the trace touches only the keys `lastState`,
`lastAnswer`, `sessionHistory`. -/
def flowKeysOk (tr : List Act) : Bool :=
  tr.all (fun a =>
    match a with
    | Act.storageSet ps =>
        ps.all (fun p =>
          p.fst = "lastState" || p.fst = "lastAnswer" || p.fst = "sessionHistory")
    | _ => true)

/-- The persisted configuration fields are untouched. -/
def configUnchanged (st st' : Store) : Prop :=
  st'.apiKey = st.apiKey ∧ st'.model = st.model ∧ st'.systemPrompt = st.systemPrompt ∧
  st'.imagePrompt = st.imagePrompt ∧ st'.textPrompt = st.textPrompt ∧
  st'.sessionEnabled = st.sessionEnabled

/-- C6: no clipboard or text flow, in either version, ever writes the
configuration keys `apiKey`, `model`, `systemPrompt`, `imagePrompt`,
`textPrompt` or `sessionEnabled`: the keys its storage writes touch are
only `lastState`, `lastAnswer` and (in session mode) `sessionHistory`,
and the configuration fields of the store are unchanged. -/
theorem claim_C6_flow_frame :
    (∀ st clip net, flowKeysOk (V2.runClipboardFlow st clip net).trace = true ∧
       configUnchanged st (V2.runClipboardFlow st clip net).store) ∧
    (∀ st text net, flowKeysOk (V2.runTextFlow st text net).trace = true ∧
       configUnchanged st (V2.runTextFlow st text net).store) ∧
    (∀ st clip net, flowKeysOk (V1.runClipboardFlow st clip net).trace = true ∧
       configUnchanged st (V1.runClipboardFlow st clip net).store) ∧
    (∀ st text net, flowKeysOk (V1.runTextFlow st text net).trace = true ∧
       configUnchanged st (V1.runTextFlow st text net).store) := by
  refine ⟨?_, ?_, ?_, ?_⟩
  · intro st clip net
    rcases V2.runClipboardFlow_shape2 st clip net with ⟨_, hr⟩ | ⟨_, h⟩
    · rw [hr]; exact ⟨rfl, rfl, rfl, rfl, rfl, rfl, rfl⟩
    · rcases h with ⟨m, _, hr⟩ | ⟨_, hr⟩ | ⟨url, e, _, hr⟩ | ⟨t, e, _, hr⟩ |
        ⟨url, j, _, _, _, hr⟩ | ⟨url, j, _, _, _, hr⟩ | ⟨t, j, _, _, _, hr⟩ |
        ⟨t, j, _, _, _, hr⟩ <;> rw [hr] <;> exact ⟨rfl, rfl, rfl, rfl, rfl, rfl, rfl⟩
  · intro st text net
    rcases V2.runTextFlow_shape2 st text net with ⟨_, hr⟩ | ⟨_, h⟩
    · rw [hr]; exact ⟨rfl, rfl, rfl, rfl, rfl, rfl, rfl⟩
    · rcases h with ⟨e, hr⟩ | ⟨j, _, _, hr⟩ | ⟨j, _, _, hr⟩ <;> rw [hr] <;>
        exact ⟨rfl, rfl, rfl, rfl, rfl, rfl, rfl⟩
  · intro st clip net
    rcases V1.runClipboardFlow_shape1 st clip net with ⟨_, hr⟩ | ⟨_, h⟩
    · rw [hr]; exact ⟨rfl, rfl, rfl, rfl, rfl, rfl, rfl⟩
    · rcases h with ⟨m, _, hr⟩ | ⟨_, hr⟩ | ⟨url, e, _, hr⟩ | ⟨t, e, _, hr⟩ |
        ⟨url, j, _, _, hr⟩ | ⟨t, j, _, _, hr⟩ <;> rw [hr] <;>
        exact ⟨rfl, rfl, rfl, rfl, rfl, rfl, rfl⟩
  · intro st text net
    rcases V1.runTextFlow_shape1 st text net with ⟨_, hr⟩ | ⟨_, h⟩
    · rw [hr]; exact ⟨rfl, rfl, rfl, rfl, rfl, rfl, rfl⟩
    · rcases h with ⟨e, hr⟩ | ⟨j, _, hr⟩ <;> rw [hr] <;>
        exact ⟨rfl, rfl, rfl, rfl, rfl, rfl, rfl⟩

/-! ### Claim C8: in-flight requests -/

/-- Number of network POSTs in a trace. -/
def netCount (tr : List Act) : Nat :=
  tr.countP (fun a =>
    match a with
    | Act.netPost _ _ => true
    | _ => false)

/-- The catch-wrapper adds no network call. -/
theorem netCount_catchWrap (r : FlowResult) : netCount (catchWrap r).trace = netCount r.trace := by
  unfold catchWrap
  split
  · rfl
  · show netCount (r.trace ++ setErrorActs) = netCount r.trace
    unfold netCount
    rw [List.countP_append]
    rfl

/-- The copy-last branch makes no network call. -/
theorem netCount_copyLast (st : Store) (cw : Option String) :
    netCount (copyLastAnswerRun st cw).trace = 0 := by
  dsimp only [copyLastAnswerRun]
  split
  · rfl
  · cases cw <;> rfl

/-- Each v2 clipboard-flow run makes at most one POST. -/
theorem netCount_clipFlow2 (st : Store) (clip : ClipOutcome) (net : NetBehavior) :
    netCount (V2.runClipboardFlow st clip net).trace ≤ 1 := by
  rcases V2.runClipboardFlow_shape2 st clip net with ⟨_, hr⟩ | ⟨_, h⟩
  · rw [hr]; exact Nat.zero_le 1
  · rcases h with ⟨m, _, hr⟩ | ⟨_, hr⟩ | ⟨url, e, _, hr⟩ | ⟨t, e, _, hr⟩ |
      ⟨url, j, _, _, _, hr⟩ | ⟨url, j, _, _, _, hr⟩ | ⟨t, j, _, _, _, hr⟩ |
      ⟨t, j, _, _, _, hr⟩ <;> rw [hr] <;> first | exact Nat.zero_le 1 | exact Nat.le_refl 1

/-- Each v2 text-flow run makes at most one POST. -/
theorem netCount_textFlow2 (st : Store) (text : String) (net : NetBehavior) :
    netCount (V2.runTextFlow st text net).trace ≤ 1 := by
  rcases V2.runTextFlow_shape2 st text net with ⟨_, hr⟩ | ⟨_, h⟩
  · rw [hr]; exact Nat.zero_le 1
  · rcases h with ⟨e, hr⟩ | ⟨j, _, _, hr⟩ | ⟨j, _, _, hr⟩ <;> rw [hr] <;> first | exact Nat.zero_le 1 | exact Nat.le_refl 1

/-- Each v1 clipboard-flow run makes at most one POST. -/
theorem netCount_clipFlow1 (st : Store) (clip : ClipOutcome) (net : NetBehavior1) :
    netCount (V1.runClipboardFlow st clip net).trace ≤ 1 := by
  rcases V1.runClipboardFlow_shape1 st clip net with ⟨_, hr⟩ | ⟨_, h⟩
  · rw [hr]; exact Nat.zero_le 1
  · rcases h with ⟨m, _, hr⟩ | ⟨_, hr⟩ | ⟨url, e, _, hr⟩ | ⟨t, e, _, hr⟩ |
      ⟨url, j, _, _, hr⟩ | ⟨t, j, _, _, hr⟩ <;> rw [hr] <;> first | exact Nat.zero_le 1 | exact Nat.le_refl 1

/-- Each v1 text-flow run makes at most one POST. -/
theorem netCount_textFlow1 (st : Store) (text : String) (net : NetBehavior1) :
    netCount (V1.runTextFlow st text net).trace ≤ 1 := by
  rcases V1.runTextFlow_shape1 st text net with ⟨_, hr⟩ | ⟨_, h⟩
  · rw [hr]; exact Nat.zero_le 1
  · rcases h with ⟨e, hr⟩ | ⟨j, _, hr⟩ <;> rw [hr] <;> first | exact Nat.zero_le 1 | exact Nat.le_refl 1

/-- Counterexample to C8 as stated: a left-click arriving while the
stored state is `"busy"` is not blocked — the listener runs the
clipboard flow and issues a (second) network POST.  There is no
in-flight guard. -/
theorem claim_C8_counterexample :
    (Store.mk (some "k") none none none none none (some "busy") none none).lastState =
      some "busy" ∧
    netCount (V2.handleActionClick
      (Store.mk (some "k") none none none none none (some "busy") none none)
      (Oracle.mk (ClipOutcome.ok (ClipResult.text "hello"))
        (NetBehavior.ok (JsValue.obj [("output_text", JsValue.str "hi")])) none)).trace = 1 := by
  exact ⟨rfl, by decide⟩

/-- C8 (amended): each handler invocation issues at most one network
POST, and a left-click in the `"ready"` state issues none; but a user
action arriving while the state is `"busy"` is not prevented from
starting a new request (see the counterexample) — only the
single-threaded event loop serializes handler bodies. -/
theorem claim_C8_single_flight :
    (∀ e st (o : Oracle), netCount (V2.dispatch e st o).trace ≤ 1) ∧
    (∀ e st (o : Oracle1), netCount (V1.dispatch e st o).trace ≤ 1) ∧
    (∀ st (o : Oracle), st.lastState = some "ready" →
       netCount (V2.handleActionClick st o).trace = 0) ∧
    (∀ st (o : Oracle1), st.lastState = some "ready" →
       netCount (V1.handleActionClick st o).trace = 0) := by
  refine ⟨?_, ?_, ?_, ?_⟩
  · intro e st o
    cases e with
    | actionClick =>
      unfold V2.dispatch V2.handleActionClick
      rw [netCount_catchWrap]
      split
      · rw [netCount_copyLast]; exact Nat.zero_le 1
      · exact netCount_clipFlow2 st o.clip o.net
    | menuClick id sel =>
      unfold V2.dispatch V2.handleContextMenu
      rw [netCount_catchWrap]
      split
      · rw [netCount_copyLast]; exact Nat.zero_le 1
      split
      · exact Nat.zero_le 1
      split
      · dsimp only
        split
        · exact Nat.zero_le 1
        · exact netCount_textFlow2 st _ o.net
      · exact Nat.zero_le 1
    | installed => exact Nat.zero_le 1
  · intro e st o
    cases e with
    | actionClick =>
      unfold V1.dispatch V1.handleActionClick
      rw [netCount_catchWrap]
      split
      · rw [netCount_copyLast]; exact Nat.zero_le 1
      · exact netCount_clipFlow1 st o.clip o.net
    | menuClick id sel =>
      unfold V1.dispatch V1.handleContextMenu
      rw [netCount_catchWrap]
      split
      · rw [netCount_copyLast]; exact Nat.zero_le 1
      split
      · dsimp only
        split
        · exact Nat.zero_le 1
        · exact netCount_textFlow1 st _ o.net
      · exact Nat.zero_le 1
    | installed => exact Nat.zero_le 1
  · intro st o hready
    unfold V2.handleActionClick
    rw [netCount_catchWrap]
    rw [if_pos hready]
    exact netCount_copyLast st o.clipWrite
  · intro st o hready
    unfold V1.handleActionClick
    rw [netCount_catchWrap]
    rw [if_pos hready]
    exact netCount_copyLast st o.clipWrite

/-- Witness for the amended C8: a ready-state click with a stored
answer makes no POST. -/
theorem claim_C8_single_flight_witness :
    netCount (V2.handleActionClick
      (Store.mk (some "k") none none none none (some "ans") (some "ready") none none)
      (Oracle.mk (ClipOutcome.ok ClipResult.empty) (NetBehavior.ok JsValue.null) none)).trace = 0 :=
  claim_C8_single_flight.2.2.1
    (Store.mk (some "k") none none none none (some "ans") (some "ready") none none)
    (Oracle.mk (ClipOutcome.ok ClipResult.empty) (NetBehavior.ok JsValue.null) none) rfl

/-! ### Claim C2: left-click dispatch -/

/-- C2: on a left icon click, when the stored state is `"ready"` and
the stored answer is non-empty (and the clipboard write succeeds), the
answer is written to the clipboard and the state goes to `"idle"` with
no network call; in every other stored state the clipboard flow is run
(wrapped in the error catch).  Holds for v1 and v2. -/
theorem claim_C2_left_click :
    (∀ st (o : Oracle),
      (st.lastState = some "ready" → st.lastAnswer.getD "" ≠ "" → o.clipWrite = none →
        V2.handleActionClick st o =
          { store := { st with lastState := some "idle" },
            trace := Act.clipboardWrite (st.lastAnswer.getD "") :: setIdleActs,
            err := none } ∧
        netCount (V2.handleActionClick st o).trace = 0) ∧
      (st.lastState ≠ some "ready" →
        V2.handleActionClick st o = catchWrap (V2.runClipboardFlow st o.clip o.net))) ∧
    (∀ st (o : Oracle1),
      (st.lastState = some "ready" → st.lastAnswer.getD "" ≠ "" → o.clipWrite = none →
        V1.handleActionClick st o =
          { store := { st with lastState := some "idle" },
            trace := Act.clipboardWrite (st.lastAnswer.getD "") :: setIdleActs,
            err := none } ∧
        netCount (V1.handleActionClick st o).trace = 0) ∧
      (st.lastState ≠ some "ready" →
        V1.handleActionClick st o = catchWrap (V1.runClipboardFlow st o.clip o.net))) := by
  constructor
  · intro st o
    constructor
    · intro hready hans hcw
      have heq : V2.handleActionClick st o =
          { store := { st with lastState := some "idle" },
            trace := Act.clipboardWrite (st.lastAnswer.getD "") :: setIdleActs,
            err := none } := by
        unfold V2.handleActionClick
        rw [if_pos hready]
        dsimp only [copyLastAnswerRun]
        rw [if_neg hans, hcw]
        rfl
      exact ⟨heq, by rw [heq]; rfl⟩
    · intro hnr
      unfold V2.handleActionClick
      rw [if_neg hnr]
  · intro st o
    constructor
    · intro hready hans hcw
      have heq : V1.handleActionClick st o =
          { store := { st with lastState := some "idle" },
            trace := Act.clipboardWrite (st.lastAnswer.getD "") :: setIdleActs,
            err := none } := by
        unfold V1.handleActionClick
        rw [if_pos hready]
        dsimp only [copyLastAnswerRun]
        rw [if_neg hans, hcw]
        rfl
      exact ⟨heq, by rw [heq]; rfl⟩
    · intro hnr
      unfold V1.handleActionClick
      rw [if_neg hnr]

/-- Witness for C2: a ready-state click with stored answer `"ans"`
copies it and goes idle; an idle-state click runs the clipboard flow. -/
theorem claim_C2_left_click_witness :
    V2.handleActionClick
      (Store.mk (some "k") none none none none (some "ans") (some "ready") none none)
      (Oracle.mk (ClipOutcome.ok ClipResult.empty) (NetBehavior.ok JsValue.null) none) =
      { store := Store.mk (some "k") none none none none (some "ans") (some "idle") none none,
        trace := Act.clipboardWrite "ans" :: setIdleActs,
        err := none } ∧
    V2.handleActionClick
      (Store.mk (some "k") none none none none none (some "idle") none none)
      (Oracle.mk (ClipOutcome.ok ClipResult.empty) (NetBehavior.ok JsValue.null) none) =
      catchWrap (V2.runClipboardFlow
        (Store.mk (some "k") none none none none none (some "idle") none none)
        (ClipOutcome.ok ClipResult.empty) (NetBehavior.ok JsValue.null)) :=
  ⟨((claim_C2_left_click.1
      (Store.mk (some "k") none none none none (some "ans") (some "ready") none none)
      (Oracle.mk (ClipOutcome.ok ClipResult.empty) (NetBehavior.ok JsValue.null) none)).1
      rfl (by decide) rfl).1,
   (claim_C2_left_click.1
      (Store.mk (some "k") none none none none none (some "idle") none none)
      (Oracle.mk (ClipOutcome.ok ClipResult.empty) (NetBehavior.ok JsValue.null) none)).2
      (by decide)⟩

/-! ### Which body does a flow POST? -/

/-- `s || ""` is the identity on non-empty strings. -/
theorem jsOrElse_of_ne (s : String) (h : s ≠ "") : jsOrElse s "" = s := by
  unfold jsOrElse
  rw [if_neg h]

/-- A POST in the catch-wrapped trace was already in the inner trace. -/
theorem netPost_mem_catchWrap (r : FlowResult) (body : RequestBody) (tm : Option Nat)
    (h : Act.netPost body tm ∈ (catchWrap r).trace) : Act.netPost body tm ∈ r.trace := by
  unfold catchWrap at h
  split at h
  · exact h
  · rcases List.mem_append.1 h with h2 | h2
    · exact h2
    · simp [setErrorActs] at h2

/-- The only body the v2 text flow ever POSTs. -/
theorem netPost_mem_textFlow2 (st : Store) (text : String) (net : NetBehavior)
    (body : RequestBody) (tm : Option Nat)
    (h : Act.netPost body tm ∈ (V2.runTextFlow st text net).trace) :
    body = V2.textBody st (jsOrElse text "") := by
  rcases V2.runTextFlow_shape2 st text net with ⟨_, hr⟩ | ⟨_, hsh⟩
  · rw [hr] at h; simp at h
  · rcases hsh with ⟨e, hr⟩ | ⟨j, _, _, hr⟩ | ⟨j, _, _, hr⟩ <;> rw [hr] at h <;>
      simp [setBusyActs, setReadyActs] at h <;> exact h.1

/-- The only body the v1 text flow ever POSTs. -/
theorem netPost_mem_textFlow1 (st : Store) (text : String) (net : NetBehavior1)
    (body : RequestBody) (tm : Option Nat)
    (h : Act.netPost body tm ∈ (V1.runTextFlow st text net).trace) :
    body = V1.textBody st (jsOrElse text "") := by
  rcases V1.runTextFlow_shape1 st text net with ⟨_, hr⟩ | ⟨_, hsh⟩
  · rw [hr] at h; simp at h
  · rcases hsh with ⟨e, hr⟩ | ⟨j, _, hr⟩ <;> rw [hr] at h <;>
      simp [setBusyActs, setReadyActs] at h <;> exact h.1

/-- The only bodies the v2 clipboard flow ever POSTs, by clip kind. -/
theorem netPost_mem_clipFlow2 (st : Store) (clip : ClipOutcome) (net : NetBehavior)
    (body : RequestBody) (tm : Option Nat)
    (h : Act.netPost body tm ∈ (V2.runClipboardFlow st clip net).trace) :
    (∃ url, clip = ClipOutcome.ok (ClipResult.image url) ∧ body = V2.visionBody st url) ∨
    (∃ t, clip = ClipOutcome.ok (ClipResult.text t) ∧
      body = V2.textBody st (jsOrElse t "")) := by
  rcases V2.runClipboardFlow_shape2 st clip net with ⟨_, hr⟩ | ⟨_, hsh⟩
  · rw [hr] at h; simp at h
  · rcases hsh with ⟨m, _, hr⟩ | ⟨_, hr⟩ | ⟨url, e, hc, hr⟩ | ⟨t, e, hc, hr⟩ |
      ⟨url, j, hc, _, _, hr⟩ | ⟨url, j, hc, _, _, hr⟩ | ⟨t, j, hc, _, _, hr⟩ |
      ⟨t, j, hc, _, _, hr⟩ <;> rw [hr] at h <;>
      simp [setBusyActs, setReadyActs] at h
    · exact Or.inl ⟨url, hc, h.1⟩
    · exact Or.inr ⟨t, hc, h.1⟩
    · exact Or.inl ⟨url, hc, h.1⟩
    · exact Or.inl ⟨url, hc, h.1⟩
    · exact Or.inr ⟨t, hc, h.1⟩
    · exact Or.inr ⟨t, hc, h.1⟩

/-! ### Claim C7: context-menu selection -/

/-- C7: on a `send-selection` context-menu event the selected text is
trimmed; if the trim is empty nothing at all happens (no badge change,
no storage write, no request); otherwise the text flow runs on the
trimmed selection and any POST it issues carries the trimmed selection
as the raw text of its text request.  Holds for v1 and v2. -/
theorem claim_C7_send_selection :
    (∀ st sel (o : Oracle),
      ((jsOr sel "").jstrim = "" →
        V2.handleContextMenu st "ghostgpt-send-selection" sel o =
          { store := st, trace := [], err := none }) ∧
      ((jsOr sel "").jstrim ≠ "" →
        V2.handleContextMenu st "ghostgpt-send-selection" sel o =
          catchWrap (V2.runTextFlow st ((jsOr sel "").jstrim) o.net) ∧
        ∀ body tm,
          Act.netPost body tm ∈ (V2.handleContextMenu st "ghostgpt-send-selection" sel o).trace →
          body = V2.textBody st ((jsOr sel "").jstrim))) ∧
    (∀ st sel (o : Oracle1),
      ((jsOr sel "").jstrim = "" →
        V1.handleContextMenu st "ghostgpt-send-selection" sel o =
          { store := st, trace := [], err := none }) ∧
      ((jsOr sel "").jstrim ≠ "" →
        V1.handleContextMenu st "ghostgpt-send-selection" sel o =
          catchWrap (V1.runTextFlow st ((jsOr sel "").jstrim) o.net) ∧
        ∀ body tm,
          Act.netPost body tm ∈ (V1.handleContextMenu st "ghostgpt-send-selection" sel o).trace →
          body = V1.textBody st ((jsOr sel "").jstrim))) := by
  constructor
  · intro st sel o
    have hbranch : ∀ res : FlowResult,
        V2.handleContextMenu st "ghostgpt-send-selection" sel o =
          catchWrap (if (jsOr sel "").jstrim = ""
            then { store := st, trace := [], err := none }
            else V2.runTextFlow st ((jsOr sel "").jstrim) o.net) := by
      intro _
      unfold V2.handleContextMenu
      rw [if_neg (by decide), if_neg (by decide), if_pos rfl]
    constructor
    · intro hsel
      rw [hbranch { store := st, trace := [], err := none }, if_pos hsel]
      rfl
    · intro hsel
      have heq := hbranch { store := st, trace := [], err := none }
      rw [if_neg hsel] at heq
      refine ⟨heq, ?_⟩
      intro body tm hmem
      rw [heq] at hmem
      have h2 := netPost_mem_catchWrap _ body tm hmem
      have h3 := netPost_mem_textFlow2 st ((jsOr sel "").jstrim) o.net body tm h2
      rwa [jsOrElse_of_ne _ hsel] at h3
  · intro st sel o
    have hbranch : ∀ res : FlowResult,
        V1.handleContextMenu st "ghostgpt-send-selection" sel o =
          catchWrap (if (jsOr sel "").jstrim = ""
            then { store := st, trace := [], err := none }
            else V1.runTextFlow st ((jsOr sel "").jstrim) o.net) := by
      intro _
      unfold V1.handleContextMenu
      rw [if_neg (by decide), if_pos rfl]
    constructor
    · intro hsel
      rw [hbranch { store := st, trace := [], err := none }, if_pos hsel]
      rfl
    · intro hsel
      have heq := hbranch { store := st, trace := [], err := none }
      rw [if_neg hsel] at heq
      refine ⟨heq, ?_⟩
      intro body tm hmem
      rw [heq] at hmem
      have h2 := netPost_mem_catchWrap _ body tm hmem
      have h3 := netPost_mem_textFlow1 st ((jsOr sel "").jstrim) o.net body tm h2
      rwa [jsOrElse_of_ne _ hsel] at h3

/-- Witness for C7: an all-whitespace selection does nothing; the
selection `" x "` runs the text flow on `"x"`. -/
theorem claim_C7_send_selection_witness :
    V2.handleContextMenu
      (Store.mk (some "k") none none none none none none none none)
      "ghostgpt-send-selection" (some "   ")
      (Oracle.mk (ClipOutcome.ok ClipResult.empty) (NetBehavior.ok JsValue.null) none) =
      { store := Store.mk (some "k") none none none none none none none none,
        trace := [], err := none } ∧
    V2.handleContextMenu
      (Store.mk (some "k") none none none none none none none none)
      "ghostgpt-send-selection" (some " x ")
      (Oracle.mk (ClipOutcome.ok ClipResult.empty) (NetBehavior.ok JsValue.null) none) =
      catchWrap (V2.runTextFlow
        (Store.mk (some "k") none none none none none none none none) "x"
        (NetBehavior.ok JsValue.null)) :=
  ⟨(claim_C7_send_selection.1
      (Store.mk (some "k") none none none none none none none none) (some "   ")
      (Oracle.mk (ClipOutcome.ok ClipResult.empty) (NetBehavior.ok JsValue.null) none)).1
      (by decide),
   ((claim_C7_send_selection.1
      (Store.mk (some "k") none none none none none none none none) (some " x ")
      (Oracle.mk (ClipOutcome.ok ClipResult.empty) (NetBehavior.ok JsValue.null) none)).2
      (by decide)).1⟩

/-! ### Claim C3: session-mode conversation continuity -/

/-- `buildHistoryMessages` applied to the stored history value agrees
with the loop over the copied array the flows use. -/
theorem buildHistoryMessages_stored (st : Store) :
    buildHistoryMessages (st.sessionHistory.getD JsValue.null) =
      buildHistoryMessagesList (histCopyOf st) := by
  cases h : st.sessionHistory with
  | none => unfold histCopyOf; rw [h]; rfl
  | some v => unfold histCopyOf; rw [h]; cases v <;> rfl

/-- With session mode on, the flows' history messages are
`buildHistoryMessages` of the stored history. -/
theorem historyOf_on (st : Store) (h : sessionOn st = true) :
    historyOf st = buildHistoryMessages (st.sessionHistory.getD JsValue.null) := by
  unfold historyOf
  rw [if_pos h, buildHistoryMessages_stored]

/-- With session mode off, the flows send no history messages. -/
theorem historyOf_off (st : Store) (h : sessionOn st = false) : historyOf st = [] := by
  unfold historyOf
  rw [if_neg (by simp [h])]

/-- No storage write in the trace touches the `sessionHistory` key. -/
def noSessionWrite (tr : List Act) : Bool :=
  tr.all (fun a =>
    match a with
    | Act.storageSet ps => ps.all (fun p => p.fst ≠ "sessionHistory")
    | _ => true)

/-- The input list of a v2 text body. -/
theorem textBody_input (st : Store) (raw : String) :
    (V2.textBody st raw).input = historyOf st ++
      [{ role := "user",
         content := [ContentPart.inputText
           (JsValue.str (V2.textForThisTurn (jsOr st.textPrompt "") raw))] }] := rfl

/-- The input list of a v2 vision body. -/
theorem visionBody_input (st : Store) (url : String) :
    (V2.visionBody st url).input = historyOf st ++
      [{ role := "user", content := V2.visionLatestContent (jsOr st.imagePrompt "") url }] := rfl

/-- C3: with session mode on, every POST a v2 flow issues has input
`buildHistoryMessages(sessionHistory)` followed by the newest user
message, and a successful flow appends the newly sent item (image
dataUrl or text) to the persisted `sessionHistory`; with session mode
off, every POST carries only the newest message and the flows never
write the `sessionHistory` key. -/
theorem claim_C3_session_mode :
    (∀ st text net body tm, sessionOn st = true →
      Act.netPost body tm ∈ (V2.runTextFlow st text net).trace →
      ∃ m : Msg, m.role = "user" ∧
        body.input = buildHistoryMessages (st.sessionHistory.getD JsValue.null) ++ [m]) ∧
    (∀ st clip net body tm, sessionOn st = true →
      Act.netPost body tm ∈ (V2.runClipboardFlow st clip net).trace →
      ∃ m : Msg, m.role = "user" ∧
        body.input = buildHistoryMessages (st.sessionHistory.getD JsValue.null) ++ [m]) ∧
    (∀ st text net, sessionOn st = true → (V2.runTextFlow st text net).err = none →
      (V2.runTextFlow st text net).store.sessionHistory =
        some (JsValue.arr (histCopyOf st ++ [textItem (jsOrElse text "")]))) ∧
    (∀ st url net, sessionOn st = true →
      (V2.runClipboardFlow st (ClipOutcome.ok (ClipResult.image url)) net).err = none →
      (V2.runClipboardFlow st (ClipOutcome.ok (ClipResult.image url)) net).store.sessionHistory =
        some (JsValue.arr (histCopyOf st ++ [imageItem url]))) ∧
    (∀ st t net, sessionOn st = true →
      (V2.runClipboardFlow st (ClipOutcome.ok (ClipResult.text t)) net).err = none →
      (V2.runClipboardFlow st (ClipOutcome.ok (ClipResult.text t)) net).store.sessionHistory =
        some (JsValue.arr (histCopyOf st ++ [textItem (jsOrElse t "")]))) ∧
    (∀ st text net, sessionOn st = false →
      (∀ body tm, Act.netPost body tm ∈ (V2.runTextFlow st text net).trace →
         ∃ m : Msg, body.input = [m]) ∧
      (V2.runTextFlow st text net).store.sessionHistory = st.sessionHistory ∧
      noSessionWrite (V2.runTextFlow st text net).trace = true) ∧
    (∀ st clip net, sessionOn st = false →
      (∀ body tm, Act.netPost body tm ∈ (V2.runClipboardFlow st clip net).trace →
         ∃ m : Msg, body.input = [m]) ∧
      (V2.runClipboardFlow st clip net).store.sessionHistory = st.sessionHistory ∧
      noSessionWrite (V2.runClipboardFlow st clip net).trace = true) := by
  refine ⟨?_, ?_, ?_, ?_, ?_, ?_, ?_⟩
  · intro st text net body tm hson hmem
    have hb := netPost_mem_textFlow2 st text net body tm hmem
    refine ⟨{ role := "user",
              content := [ContentPart.inputText
                (JsValue.str (V2.textForThisTurn (jsOr st.textPrompt "") (jsOrElse text "")))] },
            rfl, ?_⟩
    rw [hb, textBody_input, historyOf_on st hson]
  · intro st clip net body tm hson hmem
    rcases netPost_mem_clipFlow2 st clip net body tm hmem with ⟨url, _, hb⟩ | ⟨t, _, hb⟩
    · refine ⟨{ role := "user",
                content := V2.visionLatestContent (jsOr st.imagePrompt "") url },
              rfl, ?_⟩
      rw [hb, visionBody_input, historyOf_on st hson]
    · refine ⟨{ role := "user",
                content := [ContentPart.inputText
                  (JsValue.str (V2.textForThisTurn (jsOr st.textPrompt "") (jsOrElse t "")))] },
              rfl, ?_⟩
      rw [hb, textBody_input, historyOf_on st hson]
  · intro st text net hson herr
    rcases V2.runTextFlow_shape2 st text net with ⟨_, hr⟩ | ⟨_, hsh⟩
    · rw [hr] at herr; simp at herr
    · rcases hsh with ⟨e, hr⟩ | ⟨j, _, _, hr⟩ | ⟨j, _, hoff, hr⟩
      · rw [hr] at herr; simp at herr
      · rw [hr]
      · rw [hson] at hoff; simp at hoff
  · intro st url net hson herr
    rcases V2.runClipboardFlow_shape2 st (ClipOutcome.ok (ClipResult.image url)) net
      with ⟨_, hr⟩ | ⟨_, hsh⟩
    · rw [hr] at herr; simp at herr
    · rcases hsh with ⟨m, hc, hr⟩ | ⟨hc, hr⟩ | ⟨url', e, hc, hr⟩ | ⟨t, e, hc, hr⟩ |
        ⟨url', j, hc, hnet, hson', hr⟩ | ⟨url', j, hc, hnet, hoff, hr⟩ |
        ⟨t, j, hc, hnet, hson', hr⟩ | ⟨t, j, hc, hnet, hoff, hr⟩
      · simp at hc
      · simp at hc
      · rw [hr] at herr; simp at herr
      · simp at hc
      · simp only [ClipOutcome.ok.injEq, ClipResult.image.injEq] at hc
        subst hc
        rw [hr]
      · rw [hson] at hoff; simp at hoff
      · simp at hc
      · simp at hc
  · intro st t net hson herr
    rcases V2.runClipboardFlow_shape2 st (ClipOutcome.ok (ClipResult.text t)) net
      with ⟨_, hr⟩ | ⟨_, hsh⟩
    · rw [hr] at herr; simp at herr
    · rcases hsh with ⟨m, hc, hr⟩ | ⟨hc, hr⟩ | ⟨url', e, hc, hr⟩ | ⟨t', e, hc, hr⟩ |
        ⟨url', j, hc, hnet, hson', hr⟩ | ⟨url', j, hc, hnet, hoff, hr⟩ |
        ⟨t', j, hc, hnet, hson', hr⟩ | ⟨t', j, hc, hnet, hoff, hr⟩
      · simp at hc
      · simp at hc
      · simp at hc
      · rw [hr] at herr; simp at herr
      · simp at hc
      · simp at hc
      · simp only [ClipOutcome.ok.injEq, ClipResult.text.injEq] at hc
        subst hc
        rw [hr]
      · rw [hson] at hoff; simp at hoff
  · intro st text net hson
    refine ⟨?_, ?_, ?_⟩
    · intro body tm hmem
      have hb := netPost_mem_textFlow2 st text net body tm hmem
      refine ⟨{ role := "user",
                content := [ContentPart.inputText
                  (JsValue.str (V2.textForThisTurn (jsOr st.textPrompt "") (jsOrElse text "")))] },
              ?_⟩
      rw [hb, textBody_input, historyOf_off st hson]
      rfl
    · rcases V2.runTextFlow_shape2 st text net with ⟨_, hr⟩ | ⟨_, hsh⟩
      · rw [hr]
      · rcases hsh with ⟨e, hr⟩ | ⟨j, _, hon, hr⟩ | ⟨j, _, _, hr⟩
        · rw [hr]; rfl
        · rw [hson] at hon; simp at hon
        · rw [hr]
    · rcases V2.runTextFlow_shape2 st text net with ⟨_, hr⟩ | ⟨_, hsh⟩
      · rw [hr]; rfl
      · rcases hsh with ⟨e, hr⟩ | ⟨j, _, hon, hr⟩ | ⟨j, _, _, hr⟩
        · rw [hr]; rfl
        · rw [hson] at hon; simp at hon
        · rw [hr]; rfl
  · intro st clip net hson
    refine ⟨?_, ?_, ?_⟩
    · intro body tm hmem
      rcases netPost_mem_clipFlow2 st clip net body tm hmem with ⟨url, _, hb⟩ | ⟨t, _, hb⟩
      · refine ⟨{ role := "user",
                  content := V2.visionLatestContent (jsOr st.imagePrompt "") url },
                ?_⟩
        rw [hb, visionBody_input, historyOf_off st hson]
        rfl
      · refine ⟨{ role := "user",
                  content := [ContentPart.inputText
                    (JsValue.str (V2.textForThisTurn (jsOr st.textPrompt "") (jsOrElse t "")))] },
                ?_⟩
        rw [hb, textBody_input, historyOf_off st hson]
        rfl
    · rcases V2.runClipboardFlow_shape2 st clip net with ⟨_, hr⟩ | ⟨_, hsh⟩
      · rw [hr]
      · rcases hsh with ⟨m, _, hr⟩ | ⟨_, hr⟩ | ⟨url, e, _, hr⟩ | ⟨t, e, _, hr⟩ |
          ⟨url, j, _, _, hon, hr⟩ | ⟨url, j, _, _, _, hr⟩ | ⟨t, j, _, _, hon, hr⟩ |
          ⟨t, j, _, _, _, hr⟩
        · rw [hr]; rfl
        · rw [hr]; rfl
        · rw [hr]; rfl
        · rw [hr]; rfl
        · rw [hson] at hon; simp at hon
        · rw [hr]
        · rw [hson] at hon; simp at hon
        · rw [hr]
    · rcases V2.runClipboardFlow_shape2 st clip net with ⟨_, hr⟩ | ⟨_, hsh⟩
      · rw [hr]; rfl
      · rcases hsh with ⟨m, _, hr⟩ | ⟨_, hr⟩ | ⟨url, e, _, hr⟩ | ⟨t, e, _, hr⟩ |
          ⟨url, j, _, _, hon, hr⟩ | ⟨url, j, _, _, _, hr⟩ | ⟨t, j, _, _, hon, hr⟩ |
          ⟨t, j, _, _, _, hr⟩
        · rw [hr]; rfl
        · rw [hr]; rfl
        · rw [hr]; rfl
        · rw [hr]; rfl
        · rw [hson] at hon; simp at hon
        · rw [hr]; rfl
        · rw [hson] at hon; simp at hon
        · rw [hr]; rfl

/-- Witness for C3: with session mode on and an empty stored history, a
successful text flow persists the sent text as the new history item. -/
theorem claim_C3_session_mode_witness :
    (V2.runTextFlow
      (Store.mk (some "k") none none none none none none (some (JsValue.arr [])) (some true))
      "hello" (NetBehavior.ok JsValue.null)).store.sessionHistory =
      some (JsValue.arr
        (histCopyOf
          (Store.mk (some "k") none none none none none none (some (JsValue.arr [])) (some true)) ++
         [textItem (jsOrElse "hello" "")])) :=
  claim_C3_session_mode.2.2.1
    (Store.mk (some "k") none none none none none none (some (JsValue.arr [])) (some true))
    "hello" (NetBehavior.ok JsValue.null) rfl rfl

/-! ### Claim C1: idle→busy→ready/error sequencing -/

/-- Scan a trace: every POST must come strictly after a storage write
of `lastState := "busy"`. -/
def busyBeforeNetAux : Bool → List Act → Bool
  | _, [] => true
  | seen, a :: rest =>
    match a with
    | Act.netPost _ _ => seen && busyBeforeNetAux seen rest
    | Act.storageSet ps =>
        busyBeforeNetAux
          (seen || (match ps with
                    | [("lastState", JsValue.str v)] => v = "busy"
                    | _ => false)) rest
    | _ => busyBeforeNetAux seen rest

/-- Trace check: the state is set to busy before any POST is issued. -/
def busyBeforeNet (tr : List Act) : Bool :=
  busyBeforeNetAux false tr

/-- C1: in every flow of either version, the state is set to `"busy"`
before the HTTP POST is issued; on success the extracted answer is
stored and then the state is set to `"ready"` (in that order, at the
end of the trace); and when a flow throws, the enclosing event handler
ends in state `"error"` with the `setError` actions appended. -/
theorem claim_C1_state_sequencing :
    (∀ st clip net, busyBeforeNet (V2.runClipboardFlow st clip net).trace = true) ∧
    (∀ st text net, busyBeforeNet (V2.runTextFlow st text net).trace = true) ∧
    (∀ st clip net, busyBeforeNet (V1.runClipboardFlow st clip net).trace = true) ∧
    (∀ st text net, busyBeforeNet (V1.runTextFlow st text net).trace = true) ∧
    (∀ st clip net, (V2.runClipboardFlow st clip net).err = none →
      ∃ j pre, net = NetBehavior.ok j ∧
        (V2.runClipboardFlow st clip net).trace =
          pre ++ [Act.storageSet [("lastAnswer", JsValue.str (extractOutputText j))]] ++
            setReadyActs ∧
        (V2.runClipboardFlow st clip net).store.lastState = some "ready") ∧
    (∀ st text net, (V2.runTextFlow st text net).err = none →
      ∃ j pre, net = NetBehavior.ok j ∧
        (V2.runTextFlow st text net).trace =
          pre ++ [Act.storageSet [("lastAnswer", JsValue.str (extractOutputText j))]] ++
            setReadyActs ∧
        (V2.runTextFlow st text net).store.lastState = some "ready") ∧
    (∀ st clip net, (V1.runClipboardFlow st clip net).err = none →
      ∃ j pre, net = NetBehavior1.ok j ∧
        (V1.runClipboardFlow st clip net).trace =
          pre ++ [Act.storageSet [("lastAnswer", JsValue.str (extractOutputText j))]] ++
            setReadyActs ∧
        (V1.runClipboardFlow st clip net).store.lastState = some "ready") ∧
    (∀ st text net, (V1.runTextFlow st text net).err = none →
      ∃ j pre, net = NetBehavior1.ok j ∧
        (V1.runTextFlow st text net).trace =
          pre ++ [Act.storageSet [("lastAnswer", JsValue.str (extractOutputText j))]] ++
            setReadyActs ∧
        (V1.runTextFlow st text net).store.lastState = some "ready") ∧
    (∀ st (o : Oracle), st.lastState ≠ some "ready" →
      (V2.runClipboardFlow st o.clip o.net).err.isSome = true →
      (V2.handleActionClick st o).store.lastState = some "error" ∧
      ∃ pre, (V2.handleActionClick st o).trace = pre ++ setErrorActs) ∧
    (∀ st sel (o : Oracle), (jsOr sel "").jstrim ≠ "" →
      (V2.runTextFlow st ((jsOr sel "").jstrim) o.net).err.isSome = true →
      (V2.handleContextMenu st "ghostgpt-send-selection" sel o).store.lastState = some "error" ∧
      ∃ pre, (V2.handleContextMenu st "ghostgpt-send-selection" sel o).trace =
        pre ++ setErrorActs) ∧
    (∀ st (o : Oracle1), st.lastState ≠ some "ready" →
      (V1.runClipboardFlow st o.clip o.net).err.isSome = true →
      (V1.handleActionClick st o).store.lastState = some "error" ∧
      ∃ pre, (V1.handleActionClick st o).trace = pre ++ setErrorActs) ∧
    (∀ st sel (o : Oracle1), (jsOr sel "").jstrim ≠ "" →
      (V1.runTextFlow st ((jsOr sel "").jstrim) o.net).err.isSome = true →
      (V1.handleContextMenu st "ghostgpt-send-selection" sel o).store.lastState = some "error" ∧
      ∃ pre, (V1.handleContextMenu st "ghostgpt-send-selection" sel o).trace =
        pre ++ setErrorActs) := by
  refine ⟨?_, ?_, ?_, ?_, ?_, ?_, ?_, ?_, ?_, ?_, ?_, ?_⟩
  · intro st clip net
    rcases V2.runClipboardFlow_shape2 st clip net with ⟨_, hr⟩ | ⟨_, h⟩
    · rw [hr]; rfl
    · rcases h with ⟨m, _, hr⟩ | ⟨_, hr⟩ | ⟨url, e, _, hr⟩ | ⟨t, e, _, hr⟩ |
        ⟨url, j, _, _, _, hr⟩ | ⟨url, j, _, _, _, hr⟩ | ⟨t, j, _, _, _, hr⟩ |
        ⟨t, j, _, _, _, hr⟩ <;> rw [hr] <;> rfl
  · intro st text net
    rcases V2.runTextFlow_shape2 st text net with ⟨_, hr⟩ | ⟨_, h⟩
    · rw [hr]; rfl
    · rcases h with ⟨e, hr⟩ | ⟨j, _, _, hr⟩ | ⟨j, _, _, hr⟩ <;> rw [hr] <;> rfl
  · intro st clip net
    rcases V1.runClipboardFlow_shape1 st clip net with ⟨_, hr⟩ | ⟨_, h⟩
    · rw [hr]; rfl
    · rcases h with ⟨m, _, hr⟩ | ⟨_, hr⟩ | ⟨url, e, _, hr⟩ | ⟨t, e, _, hr⟩ |
        ⟨url, j, _, _, hr⟩ | ⟨t, j, _, _, hr⟩ <;> rw [hr] <;> rfl
  · intro st text net
    rcases V1.runTextFlow_shape1 st text net with ⟨_, hr⟩ | ⟨_, h⟩
    · rw [hr]; rfl
    · rcases h with ⟨e, hr⟩ | ⟨j, _, hr⟩ <;> rw [hr] <;> rfl
  · intro st clip net herr
    rcases V2.runClipboardFlow_shape2 st clip net with ⟨_, hr⟩ | ⟨_, h⟩
    · rw [hr] at herr; simp at herr
    · rcases h with ⟨m, _, hr⟩ | ⟨_, hr⟩ | ⟨url, e, _, hr⟩ | ⟨t, e, _, hr⟩ |
        ⟨url, j, _, hnet, _, hr⟩ | ⟨url, j, _, hnet, _, hr⟩ | ⟨t, j, _, hnet, _, hr⟩ |
        ⟨t, j, _, hnet, _, hr⟩
      · rw [hr] at herr; simp at herr
      · rw [hr] at herr; simp at herr
      · rw [hr] at herr; simp at herr
      · rw [hr] at herr; simp at herr
      · exact ⟨j, (setBusyActs ++ [Act.clipboardRead, Act.netPost (V2.visionBody st url) (some 20000), Act.storageSet [("sessionHistory", JsValue.arr (histCopyOf st ++ [imageItem url]))]]), hnet, by rw [hr]; exact ⟨rfl, rfl⟩⟩
      · exact ⟨j, (setBusyActs ++ [Act.clipboardRead, Act.netPost (V2.visionBody st url) (some 20000)]), hnet, by rw [hr]; exact ⟨rfl, rfl⟩⟩
      · exact ⟨j, (setBusyActs ++ [Act.clipboardRead, Act.netPost (V2.textBody st (jsOrElse t "")) (some 20000), Act.storageSet [("sessionHistory", JsValue.arr (histCopyOf st ++ [textItem (jsOrElse t "")]))]]), hnet, by rw [hr]; exact ⟨rfl, rfl⟩⟩
      · exact ⟨j, (setBusyActs ++ [Act.clipboardRead, Act.netPost (V2.textBody st (jsOrElse t "")) (some 20000)]), hnet, by rw [hr]; exact ⟨rfl, rfl⟩⟩
  · intro st text net herr
    rcases V2.runTextFlow_shape2 st text net with ⟨_, hr⟩ | ⟨_, h⟩
    · rw [hr] at herr; simp at herr
    · rcases h with ⟨e, hr⟩ | ⟨j, hnet, _, hr⟩ | ⟨j, hnet, _, hr⟩
      · rw [hr] at herr; simp at herr
      · exact ⟨j, (setBusyActs ++ [Act.netPost (V2.textBody st (jsOrElse text "")) (some 20000), Act.storageSet [("sessionHistory", JsValue.arr (histCopyOf st ++ [textItem (jsOrElse text "")]))]]), hnet, by rw [hr]; exact ⟨rfl, rfl⟩⟩
      · exact ⟨j, (setBusyActs ++ [Act.netPost (V2.textBody st (jsOrElse text "")) (some 20000)]), hnet, by rw [hr]; exact ⟨rfl, rfl⟩⟩
  · intro st clip net herr
    rcases V1.runClipboardFlow_shape1 st clip net with ⟨_, hr⟩ | ⟨_, h⟩
    · rw [hr] at herr; simp at herr
    · rcases h with ⟨m, _, hr⟩ | ⟨_, hr⟩ | ⟨url, e, _, hr⟩ | ⟨t, e, _, hr⟩ |
        ⟨url, j, _, hnet, hr⟩ | ⟨t, j, _, hnet, hr⟩
      · rw [hr] at herr; simp at herr
      · rw [hr] at herr; simp at herr
      · rw [hr] at herr; simp at herr
      · rw [hr] at herr; simp at herr
      · exact ⟨j, (setBusyActs ++ [Act.clipboardRead, Act.netPost (V1.visionBody st url) none]), hnet, by rw [hr]; exact ⟨rfl, rfl⟩⟩
      · exact ⟨j, (setBusyActs ++ [Act.clipboardRead, Act.netPost (V1.textBody st (jsOrElse t "")) none]), hnet, by rw [hr]; exact ⟨rfl, rfl⟩⟩
  · intro st text net herr
    rcases V1.runTextFlow_shape1 st text net with ⟨_, hr⟩ | ⟨_, h⟩
    · rw [hr] at herr; simp at herr
    · rcases h with ⟨e, hr⟩ | ⟨j, hnet, hr⟩
      · rw [hr] at herr; simp at herr
      · exact ⟨j, (setBusyActs ++ [Act.netPost (V1.textBody st (jsOrElse text "")) none]), hnet, by rw [hr]; exact ⟨rfl, rfl⟩⟩
  · intro st o hnr hsome
    unfold V2.handleActionClick
    rw [if_neg hnr]
    unfold catchWrap
    split
    · rename_i heq
      rw [heq] at hsome
      simp at hsome
    · exact ⟨rfl, ⟨(V2.runClipboardFlow st o.clip o.net).trace, rfl⟩⟩
  · intro st sel o hsel hsome
    unfold V2.handleContextMenu
    rw [if_neg (by decide), if_neg (by decide), if_pos rfl]
    dsimp only
    rw [if_neg hsel]
    unfold catchWrap
    split
    · rename_i heq
      rw [heq] at hsome
      simp at hsome
    · exact ⟨rfl, ⟨(V2.runTextFlow st ((jsOr sel "").jstrim) o.net).trace, rfl⟩⟩
  · intro st o hnr hsome
    unfold V1.handleActionClick
    rw [if_neg hnr]
    unfold catchWrap
    split
    · rename_i heq
      rw [heq] at hsome
      simp at hsome
    · exact ⟨rfl, ⟨(V1.runClipboardFlow st o.clip o.net).trace, rfl⟩⟩
  · intro st sel o hsel hsome
    unfold V1.handleContextMenu
    rw [if_neg (by decide), if_pos rfl]
    dsimp only
    rw [if_neg hsel]
    unfold catchWrap
    split
    · rename_i heq
      rw [heq] at hsome
      simp at hsome
    · exact ⟨rfl, ⟨(V1.runTextFlow st ((jsOr sel "").jstrim) o.net).trace, rfl⟩⟩

/-- Witness for C1: a busy-state click on an empty clipboard throws and
the handler ends in state `"error"`. -/
theorem claim_C1_state_sequencing_witness :
    (V2.handleActionClick
      (Store.mk (some "k") none none none none none (some "idle") none none)
      (Oracle.mk (ClipOutcome.ok ClipResult.empty) (NetBehavior.ok JsValue.null) none)).store.lastState =
        some "error" ∧
    ∃ pre, (V2.handleActionClick
      (Store.mk (some "k") none none none none none (some "idle") none none)
      (Oracle.mk (ClipOutcome.ok ClipResult.empty) (NetBehavior.ok JsValue.null) none)).trace =
        pre ++ setErrorActs :=
  claim_C1_state_sequencing.2.2.2.2.2.2.2.2.1
    (Store.mk (some "k") none none none none none (some "idle") none none)
    (Oracle.mk (ClipOutcome.ok ClipResult.empty) (NetBehavior.ok JsValue.null) none)
    (by decide) rfl
